import Mathlib

/-!
Navigator (src/src/web/013_navigator.js)

A shallow embedding of the link navigator: the `NavigatorContext` state
machine, `copyDefaults`, `Navigator.prototype.dispatch`, `resolve`,
`lookupLink`, `unresolve` and `rebase`.

Modelling conventions
* JavaScript objects are finite maps of their own properties (no prototype
  chain). A request or defaults object is a `JsObj`: its `headers` property is
  either not truthy or again an object, its other properties are `JsVal`s.
* A chain of Navigators is an inductive value: a Navigator carries its parent.
  Every operation returns the updated Navigator (ancestors included), the list
  of requests handed to the transport so far, and how the promise settled.
* Promises are run to completion, one operation at a time.
* The collaborators that are not in the source file (transport, link matcher,
  URI template expansion, URI helpers, `deepClone`, the `LINK_NOT_FOUND`
  constant) are the fields of `Env`.
-/

namespace Nav

/-! ## JavaScript values -/

/-- A JavaScript value stored in a request attribute. Objects (a request body,
an array, ...) are kept as a reference: their contents play no part here. -/
inductive JsVal where
  | undefined
  | null
  | bool (b : Bool)
  | num (n : Int)
  | str (s : String)
  | object (ref : Nat)
  deriving DecidableEq, Repr

/-- JavaScript truthiness (`!!v`). -/
def JsVal.truthy : JsVal → Bool
  | .undefined => false
  | .null => false
  | .bool b => b
  | .num n => n != 0
  | .str s => s != ""
  | .object _ => true

/-- The test `typeof v == 'object'` (true of `null` as well). -/
def JsVal.isObject : JsVal → Bool
  | .null => true
  | .object _ => true
  | _ => false

/-- A url held by a context (`null` or a string) as a JavaScript value. -/
def JsVal.ofUrl : Option String → JsVal
  | none => .null
  | some s => .str s

/-- Truthiness of a `null`-or-string value: `null` and `''` are falsy. -/
def urlTruthy : Option String → Bool
  | none => false
  | some s => s != ""

/-- Own properties of an object other than `headers`, in insertion order. -/
abbrev Attrs := List (String × JsVal)

/-- Property read `o[k]`: `undefined` when the key is absent. -/
def getProp (o : Attrs) (k : String) : JsVal :=
  match o.lookup k with
  | some v => v
  | none => .undefined

/-- Whether `k` is an own property (`k in o`). -/
def hasProp (o : Attrs) (k : String) : Bool :=
  (o.lookup k).isSome

/-- Property write `o[k] = v`: replaces an existing property in place, appends
a new one. -/
def setProp : Attrs → String → JsVal → Attrs
  | [], k, v => [(k, v)]
  | (k', v') :: rest, k, v =>
    if k' == k then (k, v) :: rest else (k', v') :: setProp rest k v

/-- A request descriptor or a defaults object. `flat`: the `headers` property is
absent or falsy. `nested`: `headers` is an object (itself of this shape, since
`copyDefaults` recurses into it). -/
inductive JsObj where
  | flat (attrs : Attrs)
  | nested (attrs : Attrs) (headers : JsObj)
  deriving DecidableEq, Repr

/-- The properties other than `headers`. -/
def JsObj.attrs : JsObj → Attrs
  | .flat a => a
  | .nested a _ => a

/-- The `headers` property when it is truthy. -/
def JsObj.headers : JsObj → Option JsObj
  | .flat _ => none
  | .nested _ h => some h

/-- Replace the properties other than `headers`. -/
def JsObj.withAttrs : JsObj → Attrs → JsObj
  | .flat _, a => .flat a
  | .nested _ h, a => .nested a h

/-- Read `o[k]` for a key other than `headers`. -/
def JsObj.get (o : JsObj) (k : String) : JsVal := getProp o.attrs k

/-- Write `o[k] = v` for a key other than `headers`. -/
def JsObj.set (o : JsObj) (k : String) (v : JsVal) : JsObj :=
  o.withAttrs (setProp o.attrs k v)

/-! ## Links, responses, the environment -/

/-- A link descriptor of a response `Link` header. -/
structure Link where
  rel : String
  href : String
  attrs : List (String × String)
  deriving DecidableEq, Repr

/-- A relation query object such as `{ rel: 'collection', id: 'users' }`. -/
abbrev LinkQuery := List (String × String)

/-- The `query` a context is built from. -/
inductive Query where
  /-- A value that is neither a string nor an object (`undefined`, `null`). -/
  | absent
  /-- A string: an absolute or relative URI. -/
  | uri (s : String)
  /-- A relation query object. -/
  | rel (q : LinkQuery)
  deriving DecidableEq, Repr

/-- Truthiness of a query: objects are truthy, `''` and absent values are not. -/
def Query.truthy : Query → Bool
  | .absent => false
  | .uri s => s != ""
  | .rel _ => true

/-- The parsed form of a URI, as `local.web.parseUri` returns it. -/
abbrev ParsedUri := List (String × String)

/-- A response of the transport. `link` is `res.headers.link` when truthy. -/
structure Response where
  status : Nat
  reason : String
  link : Option (List Link)
  deriving DecidableEq, Repr

/-- What a promise is rejected with, and what a context stores as `error`. -/
inductive JsError where
  | null
  | response (res : Response)
  | error (message : String)
  deriving DecidableEq, Repr

/-- How the transport settles a request. -/
inductive Reply where
  | ok (res : Response)
  | fail (res : Response)
  deriving DecidableEq, Repr

/-- The collaborators of the navigator that live outside the source file. -/
structure Env where
  /-- `local.web.isAbsUri`. -/
  isAbsUri : String → Bool
  /-- `local.web.isAbsUrl`. -/
  isAbsUrl : String → Bool
  /-- `local.web.parseUri`. -/
  parseUri : String → ParsedUri
  /-- `local.web.joinRelPath`. -/
  joinRelPath : Option ParsedUri → String → String
  /-- `local.web.queryLinks1`: the link matcher, given the link cache (possibly
  `null`) and a relation query. -/
  queryLinks1 : Option (List Link) → LinkQuery → Option Link
  /-- `local.web.UriTemplate.parse(href).expand(query)`. -/
  expand : String → LinkQuery → String
  /-- `local.web.LINK_NOT_FOUND`. -/
  LINK_NOT_FOUND : Nat
  /-- `local.web.dispatch`: the transport, given the requests sent before and
  the request to send. -/
  dispatch : List JsObj → JsObj → Reply
  /-- `local.util.deepClone`. -/
  deepClone : JsVal → JsVal

/-! ## NavigatorContext -/

/-- The context of a Navigator (source lines 19-31). -/
structure NavigatorContext where
  query : Query
  resolveState : Nat
  error : JsError
  queryIsAbsolute : Bool
  url : Option String
  urld : Option ParsedUri
  deriving DecidableEq, Repr

/-- The constant NavigatorContext.UNRESOLVED. -/
def NavigatorContext.UNRESOLVED : Nat := 0
/-- The constant NavigatorContext.RESOLVED. -/
def NavigatorContext.RESOLVED : Nat := 1
/-- The constant NavigatorContext.FAILED. -/
def NavigatorContext.FAILED : Nat := 2

/-- The constructor `new NavigatorContext(query)`. -/
def NavigatorContext.new (W : Env) (query : Query) : NavigatorContext :=
  match query with
  | .uri s =>
    if W.isAbsUri s then
      { query := query, resolveState := NavigatorContext.UNRESOLVED, error := .null,
        queryIsAbsolute := true, url := some s, urld := some (W.parseUri s) }
    else
      { query := query, resolveState := NavigatorContext.UNRESOLVED, error := .null,
        queryIsAbsolute := false, url := none, urld := none }
  | _ =>
    { query := query, resolveState := NavigatorContext.UNRESOLVED, error := .null,
      queryIsAbsolute := false, url := none, urld := none }

def NavigatorContext.isResolved (c : NavigatorContext) : Bool :=
  c.resolveState == NavigatorContext.RESOLVED

def NavigatorContext.isBad (c : NavigatorContext) : Bool :=
  c.resolveState == NavigatorContext.FAILED

def NavigatorContext.isRelative (c : NavigatorContext) : Bool := !c.queryIsAbsolute

def NavigatorContext.isAbsolute (c : NavigatorContext) : Bool := c.queryIsAbsolute

def NavigatorContext.getUrl (c : NavigatorContext) : Option String := c.url

def NavigatorContext.getError (c : NavigatorContext) : JsError := c.error

def NavigatorContext.resetResolvedState (c : NavigatorContext) : NavigatorContext :=
  { c with resolveState := NavigatorContext.UNRESOLVED, error := .null }

/-- The method `setResolved(url)`; `none` stands for a call without argument. -/
def NavigatorContext.setResolved (W : Env) (c : NavigatorContext) (url : Option String) :
    NavigatorContext :=
  let c1 := { c with error := .null, resolveState := NavigatorContext.RESOLVED }
  match url with
  | some u => if urlTruthy (some u) then { c1 with url := some u, urld := some (W.parseUri u) } else c1
  | none => c1

def NavigatorContext.setFailed (c : NavigatorContext) (error : JsError) : NavigatorContext :=
  { c with error := error, resolveState := NavigatorContext.FAILED }

/-! ## Navigator -/

/-- A Navigator (source lines 129-137). `orphan` has `parentNavigator = null`,
`child` carries its parent Navigator. -/
inductive Navigator where
  | orphan (context : NavigatorContext) (links : Option (List Link))
      (requestDefaults : Option JsObj)
  | child (context : NavigatorContext) (parentNavigator : Navigator)
      (links : Option (List Link)) (requestDefaults : Option JsObj)
  deriving DecidableEq, Repr

def Navigator.context : Navigator → NavigatorContext
  | .orphan c _ _ => c
  | .child c _ _ _ => c

def Navigator.parentNavigator : Navigator → Option Navigator
  | .orphan _ _ _ => none
  | .child _ p _ _ => some p

def Navigator.links : Navigator → Option (List Link)
  | .orphan _ l _ => l
  | .child _ _ l _ => l

def Navigator.requestDefaults : Navigator → Option JsObj
  | .orphan _ _ d => d
  | .child _ _ _ d => d

/-- Assignment to `this.context` fields: the Navigator with its context replaced. -/
def Navigator.setContext : Navigator → NavigatorContext → Navigator
  | .orphan _ l d, c => .orphan c l d
  | .child _ p l d, c => .child c p l d

/-- Assignment `this.links = l`. -/
def Navigator.setLinks : Navigator → Option (List Link) → Navigator
  | .orphan c _ d, l => .orphan c l d
  | .child c p _ d, l => .child c p l d

/-- The Navigator seen after its parent object changed state to `p`. -/
def Navigator.setParent : Navigator → Navigator → Navigator
  | .orphan c l d, _ => .orphan c l d
  | .child c _ l d, p => .child c p l d

/-- The method `setRequestDefaults(v)`. -/
def Navigator.setRequestDefaults : Navigator → Option JsObj → Navigator
  | .orphan c l _, v => .orphan c l v
  | .child c p l _, v => .child c p l v

/-- Number of ancestors of a Navigator. -/
def Navigator.depth : Navigator → Nat
  | .orphan _ _ _ => 0
  | .child _ p _ _ => p.depth + 1

/-! ## copyDefaults -/

/-- The loop of `copyDefaults` (source lines 149-157) over the keys `ks` of
`defaults`, on the properties of `target`. -/
def copyAttrs (W : Env) (defaults : Attrs) : List String → Attrs → Attrs
  | [], target => target
  | k :: ks, target =>
    if k == "headers" || (getProp target k).truthy then
      copyAttrs W defaults ks target
    else if (getProp defaults k).isObject then
      copyAttrs W defaults ks (setProp target k (W.deepClone (getProp defaults k)))
    else
      copyAttrs W defaults ks (setProp target k (getProp defaults k))

/-- The function `copyDefaults(target, defaults)` (source lines 148-163): returns
the target as it stands after the call. -/
def copyDefaults (W : Env) : JsObj → JsObj → JsObj
  | target, .flat da => target.withAttrs (copyAttrs W da (da.map Prod.fst) target.attrs)
  | target, .nested da dh =>
    let attrs := copyAttrs W da (da.map Prod.fst) target.attrs
    match target with
    | .flat _ => .nested attrs (copyDefaults W (.flat []) dh)
    | .nested _ th => .nested attrs (copyDefaults W th dh)

/-! ## lookupLink -/

/-- The method `lookupLink(context)` (source lines 331-349), called on the
Navigator `self` with the context of a child: the generated URI, or `null`. -/
def lookupLink (W : Env) (self : Navigator) (context : NavigatorContext) : Option String :=
  if context.query.truthy then
    match context.query with
    | .rel q =>
      match W.queryLinks1 self.links q with
      | some link => some (W.expand link.href q)
      | none => none
    | .uri s =>
      if !W.isAbsUrl s then some (W.joinRelPath self.context.urld s) else some s
    | .absent => none
  else none

/-! ## Promises run to completion -/

/-- How a call ended: the returned promise fulfilled or rejected, or the call
threw synchronously. -/
inductive Outcome (α : Type) where
  | fulfilled (value : α)
  | rejected (reason : JsError)
  | threw (message : String)
  deriving DecidableEq, Repr

/-- The state after a call has run to completion: the Navigator, the requests
given to the transport so far (oldest first), and the outcome. -/
structure Run (α : Type) where
  nav : Navigator
  sent : List JsObj
  outcome : Outcome α
  deriving DecidableEq, Repr

/-- The options of `resolve`, by truthiness. -/
structure ResolveOptions where
  retry : Bool
  nohead : Bool
  deriving DecidableEq, Repr

/-- The request literal `{ method: 'HEAD', url: url }`. -/
def headRequest (url : Option String) : JsObj :=
  .flat [("method", .str "HEAD"), ("url", JsVal.ofUrl url)]

/-- The response built at source lines 306-307. -/
def linkNotFound (W : Env) : Response :=
  { status := W.LINK_NOT_FOUND, reason := "link query failed to match", link := none }

/-! ## dispatch -/

/-- The failure continuation of `dispatch` (source lines 189-194), run on the
Navigator `nav` with the rejection `res`. Reading `res.status` of `null` throws
inside the continuation, which rejects with that error. -/
def dispatchFail (W : Env) (nav : Navigator) (sent : List JsObj) (res : JsError) : Run Response :=
  match res with
  | .response r =>
    if r.status == W.LINK_NOT_FOUND || r.status == 404 then
      { nav := nav.setContext (nav.context.setFailed res), sent := sent, outcome := .rejected res }
    else
      { nav := nav, sent := sent, outcome := .rejected res }
  | .null =>
    { nav := nav, sent := sent, outcome := .rejected (.error "TypeError: cannot read property status of null") }
  | .error m =>
    { nav := nav, sent := sent, outcome := .rejected (.error m) }

/-- The success continuation of `dispatch` (source lines 182-188). -/
def dispatchSucceed (W : Env) (nav : Navigator) (sent : List JsObj) (res : Response) : Run Response :=
  let nav1 := nav.setContext (nav.context.setResolved W none)
  let nav2 :=
    match res.link with
    | some l => nav1.setLinks (some l)
    | none =>
      match nav1.links with
      | some l => nav1.setLinks (some l)
      | none => nav1.setLinks (some [])
  { nav := nav2, sent := sent, outcome := .fulfilled res }

/-- The request as `dispatch` prepares it (source lines 169-174): a missing
request becomes an empty object, a missing `headers` an empty object, and the
request defaults are copied in. -/
def dispatchRequest (W : Env) (self : Navigator) (req : Option JsObj) : JsObj :=
  let req0 : JsObj := match req with
    | some r => r
    | none => .flat []
  let req1 : JsObj := match req0 with
    | .flat a => .nested a (.flat [])
    | .nested a h => .nested a h
  match self.requestDefaults with
  | some d => copyDefaults W req1 d
  | none => req1

/-- The target url of a dispatch (source line 177): `req.url` when truthy, else
the outcome of `this.resolve({ retry: req.retry, nohead: true })`. -/
def dispatchTarget
    (selfResolve : Navigator → ResolveOptions → List JsObj → Run (Option String))
    (self : Navigator) (req : JsObj) (sent : List JsObj) : Run JsVal :=
  if (req.get "url").truthy then
    { nav := self, sent := sent, outcome := .fulfilled (req.get "url") }
  else
    let r := selfResolve self { retry := (req.get "retry").truthy, nohead := true } sent
    match r.outcome with
    | .fulfilled u => { nav := r.nav, sent := r.sent, outcome := .fulfilled (JsVal.ofUrl u) }
    | .rejected e => { nav := r.nav, sent := r.sent, outcome := .rejected e }
    | .threw m => { nav := r.nav, sent := r.sent, outcome := .threw m }

/-- The body of `Navigator.prototype.dispatch` (source lines 168-195);
`selfResolve` stands for the call `this.resolve(...)`. -/
def dispatchBody (W : Env)
    (selfResolve : Navigator → ResolveOptions → List JsObj → Run (Option String))
    (self : Navigator) (req : Option JsObj) (sent : List JsObj) : Run Response :=
  let req2 := dispatchRequest W self req
  let target := dispatchTarget selfResolve self req2 sent
  match target.outcome with
  | .threw m => { nav := target.nav, sent := target.sent, outcome := .threw m }
  | .rejected e => dispatchFail W target.nav target.sent e
  | .fulfilled url =>
    let req3 := req2.set "url" url
    match W.dispatch target.sent req3 with
    | .ok res => dispatchSucceed W target.nav (target.sent ++ [req3]) res
    | .fail res => dispatchFail W target.nav (target.sent ++ [req3]) (.response res)

/-! ## resolve -/

/-- The failure continuation of `resolve` (source lines 310-313). -/
def resolveFail (nav : Navigator) (sent : List JsObj) (error : JsError) : Run (Option String) :=
  { nav := nav.setContext (nav.context.setFailed error), sent := sent, outcome := .rejected error }

/-- The body of `Navigator.prototype.resolve` (source lines 269-328);
`parentResolve` stands for the call `this.parentNavigator.resolve(options)` and
`selfDispatch` for the calls `this.dispatch(...)`. -/
def resolveBody (W : Env)
    (parentResolve : Navigator → ResolveOptions → List JsObj → Run (Option String))
    (selfDispatch : Navigator → Option JsObj → List JsObj → Run Response)
    (self : Navigator) (options : ResolveOptions) (sent : List JsObj) : Run (Option String) :=
  let nohead := options.nohead
  let options1 : ResolveOptions := { retry := options.retry, nohead := false }
  if self.links != none &&
      (self.context.isResolved || (self.context.isAbsolute && self.context.isBad == false)) then
    { nav := self, sent := sent, outcome := .fulfilled self.context.getUrl }
  else if self.context.isBad == false || (self.context.isBad && options1.retry) then
    let self1 := self.setContext self.context.resetResolvedState
    if self1.context.isRelative then
      match self1.parentNavigator with
      | none => { nav := self1, sent := sent, outcome := .threw "Relative navigator has no parent" }
      | some parent =>
        let up := parentResolve parent options1 sent
        let self2 := self1.setParent up.nav
        match up.outcome with
        | .threw m => { nav := self2, sent := up.sent, outcome := .threw m }
        | .rejected e => resolveFail self2 up.sent e
        | .fulfilled _ =>
          let childUrl := lookupLink W up.nav self2.context
          if urlTruthy childUrl then
            let self3 := self2.setContext (self2.context.setResolved W childUrl)
            if nohead then
              { nav := self3, sent := up.sent, outcome := .fulfilled childUrl }
            else
              let head := selfDispatch self3 (some (headRequest childUrl)) up.sent
              match head.outcome with
              | .fulfilled _ => { nav := head.nav, sent := head.sent, outcome := .fulfilled childUrl }
              | .rejected e => resolveFail head.nav head.sent e
              | .threw m => resolveFail head.nav head.sent (.error m)
          else
            resolveFail self2 up.sent (.response (linkNotFound W))
    else
      if nohead then
        { nav := self1, sent := sent, outcome := .fulfilled self1.context.getUrl }
      else
        let head := selfDispatch self1 (some (headRequest self1.context.getUrl)) sent
        match head.outcome with
        | .fulfilled _ =>
          { nav := head.nav, sent := head.sent, outcome := .fulfilled head.nav.context.getUrl }
        | .rejected e => { nav := head.nav, sent := head.sent, outcome := .rejected e }
        | .threw m => { nav := head.nav, sent := head.sent, outcome := .threw m }
  else
    { nav := self, sent := sent, outcome := .rejected self.context.getError }

/-- A stand-in for `this.dispatch` where `resolve` runs with `nohead` set and so
never dispatches (see `resolveBody_nohead`). -/
def noDispatch (self : Navigator) (_req : Option JsObj) (sent : List JsObj) : Run Response :=
  { nav := self, sent := sent, outcome := .threw "dispatch is not reached" }

/-- The method `Navigator.prototype.resolve`, by recursion on the parent chain.
The bodies of `resolve` and `dispatch` are tied together here; `resolve_eq`
states that the function satisfies the recursion of the source. -/
def resolve (W : Env) : Navigator → ResolveOptions → List JsObj → Run (Option String)
  | .orphan c l d, options, sent =>
    let up : Navigator → ResolveOptions → List JsObj → Run (Option String) :=
      fun p _ s => { nav := p, sent := s, outcome := .threw "no parent" }
    resolveBody W up (dispatchBody W (resolveBody W up noDispatch)) (.orphan c l d) options sent
  | .child c p l d, options, sent =>
    let up : Navigator → ResolveOptions → List JsObj → Run (Option String) :=
      fun _ o s => resolve W p o s
    resolveBody W up (dispatchBody W (resolveBody W up noDispatch)) (.child c p l d) options sent

/-- The method `Navigator.prototype.dispatch`. -/
def dispatch (W : Env) (self : Navigator) (req : Option JsObj) (sent : List JsObj) : Run Response :=
  dispatchBody W (resolve W) self req sent

/-! ## Construction, follow, unresolve, rebase, sugars -/

/-- The constructor `new Navigator(context, parentNavigator)` (source lines
129-137): an error message when it throws. -/
def Navigator.new (context : NavigatorContext) (parentNavigator : Option Navigator) :
    Except String Navigator :=
  match parentNavigator with
  | none =>
    if context.isRelative then
      .error "A parentNavigator is required for navigators with relative contexts"
    else .ok (.orphan context none none)
  | some p => .ok (.child context p none none)

/-- One round of the loop of `follow` (source lines 235-237). -/
def followStep (W : Env) (this : Navigator) (nav : Navigator) (q : Query) : Navigator :=
  let nav1 := Navigator.child (NavigatorContext.new W q) nav none none
  match this.requestDefaults with
  | some d => nav1.setRequestDefaults (some d)
  | none => nav1

/-- The rounds of `follow` after the first, while `query[0]` is truthy. -/
def followLoop (W : Env) (this : Navigator) : Navigator → List Query → Navigator
  | nav, [] => nav
  | nav, q :: rest => if q.truthy then followLoop W this (followStep W this nav q) rest else nav

/-- The method `follow(query)` on a list of queries (source lines 223-241); a
single query object is the one-element list. -/
def follow (W : Env) (this : Navigator) (query : List Query) : Navigator :=
  match query with
  | [] => followStep W this this .absent
  | q :: rest => followLoop W this (followStep W this this q) rest

/-- The method `unresolve()` (source lines 244-248). -/
def unresolve (self : Navigator) : Navigator :=
  (self.setContext self.context.resetResolvedState).setLinks none

/-- The method `rebase(url)` (source lines 253-260). -/
def rebase (W : Env) (self : Navigator) (url : String) : Navigator :=
  let self1 := unresolve self
  self1.setContext
    { self1.context with
      query := .uri url, queryIsAbsolute := true, url := some url, urld := some (W.parseUri url) }

/-- The sugar `get(headers, options)` made by `makeDispSugar('GET')` (source
lines 353-360, 371). -/
def get (W : Env) (self : Navigator) (headers : Option JsObj) (options : Option JsObj)
    (sent : List JsObj) : Run Response :=
  let req : JsObj := match options with
    | some o => o
    | none => .flat []
  let hdrs : JsObj := match headers with
    | some h => h
    | none => .flat []
  dispatch W self (some ((JsObj.nested req.attrs hdrs).set "method" (.str "GET"))) sent

/-! ## A concrete environment -/

/-- Modelled from the spec: the link matcher local.web.queryLinks1 is not in the
source file. Section 4.2: the first descriptor whose relation label equals the
relation label of the query and whose identifier equals the identifier of the
query; no descriptor when the link list is `null`. -/
def demoQueryLinks1 (links : Option (List Link)) (q : LinkQuery) : Option Link :=
  match links with
  | none => none
  | some ls =>
    ls.find? (fun l => some l.rel == q.lookup "rel" && l.attrs.lookup "id" == q.lookup "id")

/-- Modelled from the spec: URI template expansion is not in the source file. A
template without tokens expands to itself. -/
def demoExpand (href : String) (_q : LinkQuery) : String := href

/-- An environment over a given transport: absolute URIs start with a scheme,
the pseudo-status is 1 (source line 105), `deepClone` returns its argument. -/
def demoEnv (transport : List JsObj → JsObj → Reply) : Env :=
  { isAbsUri := fun s => "http://".toList.isPrefixOf s.toList || "https://".toList.isPrefixOf s.toList
    isAbsUrl := fun s => "http://".toList.isPrefixOf s.toList || "https://".toList.isPrefixOf s.toList
    parseUri := fun s => [("source", s)]
    joinRelPath := fun base rel =>
      match base with
      | some b => (b.lookup "source").getD "" ++ "/" ++ rel
      | none => rel
    queryLinks1 := demoQueryLinks1
    expand := demoExpand
    LINK_NOT_FOUND := 1
    dispatch := transport
    deepClone := fun v => v }

/-- A successful response carrying the given links. -/
def okLinks (links : List Link) : Reply :=
  .ok { status := 200, reason := "ok", link := some links }

/-- A successful response without a link header. -/
def okPlain : Reply :=
  .ok { status := 204, reason := "no content", link := none }

/-- A failed response with the given status. -/
def failWith (status : Nat) : Reply :=
  .fail { status := status, reason := "failed", link := none }

/-- A transport that answers every request with success and no links. -/
def alwaysOk (_sent : List JsObj) (_req : JsObj) : Reply := okPlain

/-- A transport that rejects every request with status 500. -/
def alwaysFail500 (_sent : List JsObj) (_req : JsObj) : Reply := failWith 500

/-- The transport of the cold chain example: the root answers with the link
`a -> /a`, `/a` with the link `b -> /a/b`, any other address with no links. -/
def abTransport (_sent : List JsObj) (req : JsObj) : Reply :=
  if req.get "url" == .str "https://foobar.com" then
    okLinks [{ rel := "a", href := "/a", attrs := [] }]
  else if req.get "url" == .str "/a" then
    okLinks [{ rel := "b", href := "/a/b", attrs := [] }]
  else okPlain

/-- A fresh absolute root Navigator at `https://foobar.com`. -/
def demoRoot (W : Env) : Navigator :=
  .orphan (NavigatorContext.new W (.uri "https://foobar.com")) none none

/-- A relative Navigator whose context failed with a 404 response, under an
absolute root that was never resolved. -/
def failedChild (W : Env) : Navigator :=
  .child ((NavigatorContext.new W (.rel [("rel", "a")])).setFailed
      (.response { status := 404, reason := "not found", link := none }))
    (demoRoot W) none none

/-- A relative Navigator that was resolved to `/a` and cached an empty link list. -/
def warmChild (W : Env) : Navigator :=
  .child ((NavigatorContext.new W (.rel [("rel", "a")])).setResolved W (some "/a"))
    (demoRoot W) (some []) none

/-! ## Probes along a chain -/

/-- The ancestors of a Navigator, root first. -/
def Navigator.ancestors : Navigator → List Navigator
  | .orphan _ _ _ => []
  | .child _ p _ _ => p.ancestors ++ [p]

/-- The request that reaches the transport when the Navigator `self` dispatches
`{ method: 'HEAD', url: url }`: the probe with the request defaults copied in. -/
def probeRequest (W : Env) (self : Navigator) (url : Option String) : JsObj :=
  (dispatchRequest W self (some (headRequest url))).set "url" (JsVal.ofUrl url)

/-- The link cache after a successful dispatch (source lines 185-186). -/
def linksAfter (old : Option (List Link)) (res : Response) : Option (List Link) :=
  match res.link with
  | some l => some l
  | none =>
    match old with
    | some l => some l
    | none => some []

/-- The probe `{ method: 'HEAD', url: u, headers: {} }` as it reaches the
transport from a Navigator without request defaults. -/
def probe (u : String) : JsObj :=
  .nested [("method", .str "HEAD"), ("url", .str u)] (.flat [])

/-- A fresh Navigator on the address `root`, without parent. -/
def rootNavigator (W : Env) (root : String) : Navigator :=
  .orphan (NavigatorContext.new W (.uri root)) none none

/-- The chain `root.follow({rel:'a'}).follow({rel:'b'})` over the address `root`. -/
def abChain (W : Env) (root : String) : Navigator :=
  follow W (follow W (rootNavigator W root) [.rel [("rel", "a")]]) [.rel [("rel", "b")]]

/-- A cold chain: an absolute root that has an address, followed by relative
hops; every context Unresolved, every link cache `null`. -/
def cold : Navigator → Bool
  | .orphan c l _ =>
    c.isAbsolute && c.resolveState == NavigatorContext.UNRESOLVED && l.isNone && urlTruthy c.getUrl
  | .child c p l _ =>
    c.isRelative && c.resolveState == NavigatorContext.UNRESOLVED && l.isNone && cold p

/-- Every link lookup of a resolution of the chain matches: each hop finds a
truthy address for its query in its parent, as the parent stands after its own
resolution (started with `retry` and the requests `sent` before). -/
def lookupsMatch (W : Env) : Navigator → Bool → List JsObj → Bool
  | .orphan _ _ _, _, _ => true
  | .child c p _ _, retry, sent =>
    lookupsMatch W p retry sent &&
      urlTruthy (lookupLink W (resolve W p { retry := retry, nohead := false } sent).nav
        c.resetResolvedState)

/-- The probe a Navigator sends to its own address. -/
def probeOf (W : Env) (a : Navigator) : JsObj := probeRequest W a a.context.getUrl

/-- The transport of the first example of the source (lines 67-86): the root
lists the collection `users`, the collection lists the item `bob`. -/
def foobarTransport (_sent : List JsObj) (req : JsObj) : Reply :=
  if req.get "url" == .str "https://foobar.com" then
    okLinks [{ rel := "collection", href := "https://foobar.com/users", attrs := [("id", "users")] }]
  else if req.get "url" == .str "https://foobar.com/users" then
    okLinks [{ rel := "item", href := "https://foobar.com/users/bob", attrs := [("id", "bob")] }]
  else okPlain

/-- The chain of the first example of the source:
`foobarService.follow([{ rel: 'collection', id: 'users' }, { rel: 'item', id: 'bob' }])`. -/
def bob (W : Env) : Navigator :=
  follow W (rootNavigator W "https://foobar.com")
    [.rel [("rel", "collection"), ("id", "users")], .rel [("rel", "item"), ("id", "bob")]]

/-- The request that `bob.get()` dispatches. -/
def getRequest : JsObj := .nested [("method", .str "GET")] (.flat [])

/-- The chain `root.follow({rel:'a'})` over `https://foobar.com`. -/
def aChain (W : Env) : Navigator :=
  follow W (rootNavigator W "https://foobar.com") [.rel [("rel", "a")]]

/-- A request with an explicit url. -/
def explicitRequest : JsObj :=
  .nested [("method", .str "POST"), ("url", .str "https://foobar.com/x")] (.flat [])

/-- A root Navigator that was resolved and cached the link `a -> /a`. -/
def linkedRoot (W : Env) : Navigator :=
  .orphan ((NavigatorContext.new W (.uri "https://foobar.com")).setResolved W none)
    (some [{ rel := "a", href := "/a", attrs := [] }]) none

/-- The request `{ timeout: 0 }` (with the empty `headers` that dispatch adds). -/
def zeroTimeoutRequest : JsObj := .nested [("timeout", .num 0)] (.flat [])

/-- The defaults `{ timeout: 30 }`. -/
def timeoutDefaults : JsObj := .flat [("timeout", .num 30)]

/-- The defaults `{ headers: { accept: 'json' }, method: 'GET' }`. -/
def acceptDefaults : JsObj := .nested [("method", .str "GET")] (.flat [("accept", .str "json")])

/-- The request `{ headers: { authorization: 'x' } }`. -/
def authRequest : JsObj := .nested [] (.flat [("authorization", .str "x")])

/-- The request `{ headers: { accept: '' } }`. -/
def emptyAcceptRequest : JsObj := .nested [] (.flat [("accept", .str "")])

/-- An absolute root whose context failed with a 404 response. -/
def failedRoot (W : Env) : Navigator :=
  .orphan ((NavigatorContext.new W (.uri "https://foobar.com")).setFailed
    (.response { status := 404, reason := "not found", link := none })) none none

/-- The invariant of absolute contexts: an absolute context has an address. -/
def absoluteHasUrl (c : NavigatorContext) : Prop :=
  c.isAbsolute = true → c.getUrl ≠ none

/-- The invariant of the stored error: an error is stored only on a Failed context. -/
def errorOnlyWhenFailed (c : NavigatorContext) : Prop :=
  c.getError ≠ .null → c.resolveState = NavigatorContext.FAILED

/-- The request `{ method: 'GET', url: 'https://foobar.com' }`. -/
def rootGetRequest : JsObj :=
  .nested [("method", .str "GET"), ("url", .str "https://foobar.com")] (.flat [])

/-- A Navigator with its ancestors: the chain from the root down to it. -/
def Navigator.lineage (nav : Navigator) : List Navigator := nav.ancestors ++ [nav]

/-- The chain `foobarService.follow([{rel:'collection', id:'users'}, {rel:'item', id:'bob'}])`
on a root that carries request defaults. -/
def bobWithDefaults (W : Env) : Navigator :=
  follow W ((rootNavigator W "https://foobar.com").setRequestDefaults (some acceptDefaults))
    [.rel [("rel", "collection"), ("id", "users")], .rel [("rel", "item"), ("id", "bob")]]

/-- A relative Navigator that was resolved to `/a` and cached an empty link
list, under a root that has failed since with a 404 response. -/
def warmChildOfFailedRoot (W : Env) : Navigator :=
  .child ((NavigatorContext.new W (.rel [("rel", "a")])).setResolved W (some "/a"))
    (failedRoot W) (some []) none

/-- A cold relative Navigator under a root that failed with a 404 response. -/
def coldChildOfFailedRoot (W : Env) : Navigator :=
  .child (NavigatorContext.new W (.rel [("rel", "a")])) (failedRoot W) none none

/-- The environment `W` with the link matcher replaced by `f`. -/
def Env.withMatcher (W : Env) (f : Option (List Link) → LinkQuery → Option Link) : Env :=
  { W with queryLinks1 := f }

/-- A link matcher that answers on a `null` link list, unlike `demoQueryLinks1`,
and like it on every list. -/
def eagerMatcher (links : Option (List Link)) (q : LinkQuery) : Option Link :=
  match links with
  | none => some { rel := "any", href := "/anywhere", attrs := [] }
  | some ls => demoQueryLinks1 (some ls) q

/-- A transport on which the root answers a HEAD with the link `a -> /a` and
every other request is rejected with status 500. -/
def failLeaf500 (_sent : List JsObj) (req : JsObj) : Reply :=
  if req.get "url" == .str "https://foobar.com" then
    okLinks [{ rel := "a", href := "/a", attrs := [] }]
  else failWith 500

/-! ## copyDefaults on a store of objects -/

/-- An object in the store: its properties other than `headers`, and the
reference held by its `headers` property when that is an object. -/
structure Cell where
  attrs : Attrs
  headers : Option Nat
  deriving DecidableEq, Repr

/-- The store of objects: a reference is a position in the list. -/
abbrev Heap := List Cell

/-- The function `copyDefaults(target, defaults)` (source lines 148-163) on
references into a store, where an assignment changes the object in place: the
store after the call. The first argument bounds the depth of the recursion into
`headers`; a new `headers` object is allocated at the end of the store. The loop
runs over the properties of `defaults` as they stand when it starts: a write to
`target[k]` does not change what is read later for another key. -/
def copyDefaultsH (W : Env) : Nat → Heap → Nat → Nat → Heap
  | 0, h, _, _ => h
  | fuel + 1, h, target, defaults =>
    match h[defaults]?, h[target]? with
    | some dc, some tc =>
      let h1 := h.set target
        { tc with attrs := copyAttrs W dc.attrs (dc.attrs.map Prod.fst) tc.attrs }
      match h1[defaults]? with
      | some dc1 =>
        match dc1.headers with
        | some dh =>
          match h1[target]? with
          | some tc1 =>
            match tc1.headers with
            | some th => copyDefaultsH W fuel h1 th dh
            | none =>
              copyDefaultsH W fuel
                ((h1.set target { tc1 with headers := some h1.length })
                  ++ [{ attrs := [], headers := none }])
                h1.length dh
          | none => h1
        | none => h1
      | none => h1
    | _, _ => h

/-- Depth of the `headers` nesting of an object. -/
def JsObj.depth : JsObj → Nat
  | .flat _ => 0
  | .nested _ v => v.depth + 1

/-- The store holds the object `v` at the reference `r`, in the cells `fp`: the
cell of `r`, then the cell of its `headers`, and so on. -/
def Holds (h : Heap) : JsObj → Nat → List Nat → Prop
  | .flat a, r, fp => fp = [r] ∧ h[r]? = some { attrs := a, headers := none }
  | .nested a v, r, fp =>
    ∃ hr fp1, fp = r :: fp1 ∧ h[r]? = some { attrs := a, headers := some hr } ∧ Holds h v hr fp1

/-- A store in which the `headers` of the request (reference 2) is the defaults
object itself (reference 0): `d = { method: 'GET', headers: { accept: 'json' } }`
and `r = { headers: d }`. -/
def aliasedHeap : Heap :=
  [{ attrs := [("method", .str "GET")], headers := some 1 },
    { attrs := [("accept", .str "json")], headers := none },
    { attrs := [], headers := some 0 }]

/-- A store with the defaults `{ headers: { accept: 'json' }, method: 'GET' }` at
reference 0 and the request `{ headers: { authorization: 'x' } }` at reference 2. -/
def separateHeap : Heap :=
  [{ attrs := [("method", .str "GET")], headers := some 1 },
    { attrs := [("accept", .str "json")], headers := none },
    { attrs := [], headers := some 3 },
    { attrs := [("authorization", .str "x")], headers := none }]

/-! ## Properties of property reads and writes -/

theorem getProp_setProp_same (o : Attrs) (k : String) (v : JsVal) :
    getProp (setProp o k v) k = v := by
  induction o with
  | nil => simp [setProp, getProp, List.lookup]
  | cons p rest ih =>
    obtain ⟨k1, v1⟩ := p
    by_cases h : k1 = k
    · subst h
      simp [setProp, getProp, List.lookup]
    · have h2 : (k == k1) = false := by simpa using fun e => h e.symm
      simp only [setProp, beq_iff_eq, h, if_false]
      simp only [getProp, List.lookup, h2] at ih ⊢
      exact ih

theorem getProp_setProp_ne (o : Attrs) (k k2 : String) (v : JsVal) (hne : k ≠ k2) :
    getProp (setProp o k2 v) k = getProp o k := by
  induction o with
  | nil =>
    have h2 : (k == k2) = false := by simpa using hne
    simp [setProp, getProp, List.lookup, h2]
  | cons p rest ih =>
    obtain ⟨k1, v1⟩ := p
    by_cases h : k1 = k2
    · subst h
      have h2 : (k == k1) = false := by simpa using hne
      simp [setProp, getProp, List.lookup, h2]
    · simp only [setProp, beq_iff_eq, h, if_false]
      by_cases h3 : k = k1
      · subst h3
        simp [getProp, List.lookup]
      · have h4 : (k == k1) = false := by simpa using h3
        simp only [getProp, List.lookup, h4] at ih ⊢
        exact ih

theorem truthy_ne_undefined {v : JsVal} (h : v.truthy = true) : v ≠ .undefined := by
  intro e
  subst e
  simp [JsVal.truthy] at h

/-- The loop of `copyDefaults` keeps every property whose value is truthy. -/
theorem copyAttrs_truthy (W : Env) (defaults : Attrs) (ks : List String) (target : Attrs)
    (k : String) (h : (getProp target k).truthy = true) :
    getProp (copyAttrs W defaults ks target) k = getProp target k := by
  induction ks generalizing target with
  | nil => simp [copyAttrs]
  | cons k0 ks ih =>
    simp only [copyAttrs]
    split
    · exact ih target h
    · rename_i hc
      have hk : k ≠ k0 := by
        intro e
        subst e
        simp [h] at hc
      split
      · rw [ih _ (by rw [getProp_setProp_ne _ _ _ _ hk]; exact h), getProp_setProp_ne _ _ _ _ hk]
      · rw [ih _ (by rw [getProp_setProp_ne _ _ _ _ hk]; exact h), getProp_setProp_ne _ _ _ _ hk]

/-- The function `copyDefaults` keeps every top-level property whose value is truthy. -/
theorem copyDefaults_truthy (W : Env) (target defaults : JsObj) (k : String)
    (h : (target.get k).truthy = true) :
    (copyDefaults W target defaults).get k = target.get k := by
  cases defaults with
  | flat da =>
    cases target <;> simp only [copyDefaults, JsObj.get, JsObj.attrs, JsObj.withAttrs] at h ⊢ <;>
      exact copyAttrs_truthy W da _ _ k h
  | nested da dh =>
    cases target <;> simp only [copyDefaults, JsObj.get, JsObj.attrs, JsObj.withAttrs] at h ⊢ <;>
      exact copyAttrs_truthy W da _ _ k h

/-- A probe request keeps its truthy url through the preparation of `dispatch`. -/
theorem dispatchRequest_head_url (W : Env) (self : Navigator) (u : Option String)
    (h : urlTruthy u = true) :
    (dispatchRequest W self (some (headRequest u))).get "url" = JsVal.ofUrl u := by
  have hu : (JsVal.ofUrl u).truthy = true := by
    cases u with
    | none => simp [urlTruthy] at h
    | some s => simpa [urlTruthy, JsVal.ofUrl, JsVal.truthy] using h
  have h0 : (JsObj.nested [("method", JsVal.str "HEAD"), ("url", JsVal.ofUrl u)] (.flat [])).get "url"
      = JsVal.ofUrl u := by
    simp [JsObj.get, JsObj.attrs, getProp, List.lookup]
  unfold dispatchRequest headRequest
  cases hd : self.requestDefaults with
  | none => simpa using h0
  | some d =>
    simp only []
    rw [copyDefaults_truthy W _ d "url" (by rw [h0]; exact hu), h0]

/-- A probe request keeps its method through the preparation of `dispatch`. -/
theorem dispatchRequest_head_method (W : Env) (self : Navigator) (u : Option String) :
    (dispatchRequest W self (some (headRequest u))).get "method" = .str "HEAD" := by
  have h0 : (JsObj.nested [("method", JsVal.str "HEAD"), ("url", JsVal.ofUrl u)] (.flat [])).get "method"
      = .str "HEAD" := by
    simp [JsObj.get, JsObj.attrs, getProp, List.lookup]
  unfold dispatchRequest headRequest
  cases hd : self.requestDefaults with
  | none => simpa using h0
  | some d =>
    simp only []
    rw [copyDefaults_truthy W _ d "method" (by rw [h0]; simp [JsVal.truthy]), h0]

/-! ## The recursion of resolve and dispatch -/

/-- With `nohead` set, `resolve` never calls `this.dispatch`. -/
theorem resolveBody_nohead (W : Env)
    (up : Navigator → ResolveOptions → List JsObj → Run (Option String))
    (D1 D2 : Navigator → Option JsObj → List JsObj → Run Response)
    (self : Navigator) (retry : Bool) (sent : List JsObj) :
    resolveBody W up D1 self { retry := retry, nohead := true } sent
      = resolveBody W up D2 self { retry := retry, nohead := true } sent := by
  simp [resolveBody]

/-- A dispatch only calls `this.resolve` on the Navigator it runs on, with
`nohead` set. -/
theorem dispatchBody_congr (W : Env)
    (X1 X2 : Navigator → ResolveOptions → List JsObj → Run (Option String))
    (self : Navigator) (req : Option JsObj) (sent : List JsObj)
    (h : ∀ retry, X1 self { retry := retry, nohead := true } sent
      = X2 self { retry := retry, nohead := true } sent) :
    dispatchBody W X1 self req sent = dispatchBody W X2 self req sent := by
  simp only [dispatchBody, dispatchTarget, h]

/-- A dispatch with a truthy url does not call `this.resolve`. -/
theorem dispatchBody_explicit (W : Env)
    (X1 X2 : Navigator → ResolveOptions → List JsObj → Run (Option String))
    (self : Navigator) (req : Option JsObj) (sent : List JsObj)
    (h : ((dispatchRequest W self req).get "url").truthy = true) :
    dispatchBody W X1 self req sent = dispatchBody W X2 self req sent := by
  simp only [dispatchBody, dispatchTarget, h, if_true]

/-- The body of `resolve` depends on its callees only where it calls them. -/
theorem resolveBody_congr (W : Env)
    (up1 up2 : Navigator → ResolveOptions → List JsObj → Run (Option String))
    (D1 D2 : Navigator → Option JsObj → List JsObj → Run Response)
    (self : Navigator) (options : ResolveOptions) (sent : List JsObj)
    (hup : ∀ p o s, self.parentNavigator = some p → up1 p o s = up2 p o s)
    (hrel : ∀ n u s, urlTruthy u = true →
      D1 n (some (headRequest u)) s = D2 n (some (headRequest u)) s)
    (habs : D1 (self.setContext self.context.resetResolvedState)
        (some (headRequest (self.setContext self.context.resetResolvedState).context.getUrl)) sent
      = D2 (self.setContext self.context.resetResolvedState)
        (some (headRequest (self.setContext self.context.resetResolvedState).context.getUrl)) sent) :
    resolveBody W up1 D1 self options sent = resolveBody W up2 D2 self options sent := by
  have hpar : (self.setContext self.context.resetResolvedState).parentNavigator
      = self.parentNavigator := by
    cases self <;> rfl
  unfold resolveBody
  simp only []
  split
  · rfl
  · split
    · split
      · split
        · rfl
        · rename_i parent hp
          rw [hpar] at hp
          rw [hup parent _ _ hp]
          split
          · rfl
          · rfl
          · split
            · rename_i hu
              split
              · rfl
              · rw [hrel _ _ _ hu]
            · rfl
      · split
        · rfl
        · rw [habs]
    · rfl

/-- The method `resolve` satisfies the recursion written in the source: its body
runs with `this.parentNavigator.resolve` and `this.dispatch` as callees. -/
theorem resolve_eq (W : Env) (self : Navigator) (options : ResolveOptions) (sent : List JsObj) :
    resolve W self options sent
      = resolveBody W (fun p o s => resolve W p o s) (dispatch W) self options sent := by
  cases self with
  | orphan c l d =>
    rw [resolve]
    apply resolveBody_congr
    · intro p o s hp
      simp [Navigator.parentNavigator] at hp
    · intro n u s hu
      exact dispatchBody_explicit W _ _ n _ s
        (by rw [dispatchRequest_head_url W n u hu]
            cases u with
            | none => simp [urlTruthy] at hu
            | some x => simpa [urlTruthy, JsVal.ofUrl, JsVal.truthy] using hu)
    · apply dispatchBody_congr
      intro retry
      simp only [Navigator.setContext]
      rw [resolve]
      exact resolveBody_nohead W _ _ _ _ retry sent
  | child c p l d =>
    rw [resolve]
    apply resolveBody_congr
    · intro q o s hq
      simp only [Navigator.parentNavigator, Option.some.injEq] at hq
      subst hq
      rfl
    · intro n u s hu
      exact dispatchBody_explicit W _ _ n _ s
        (by rw [dispatchRequest_head_url W n u hu]
            cases u with
            | none => simp [urlTruthy] at hu
            | some x => simpa [urlTruthy, JsVal.ofUrl, JsVal.truthy] using hu)
    · apply dispatchBody_congr
      intro retry
      simp only [Navigator.setContext]
      rw [resolve]
      exact resolveBody_nohead W _ _ _ _ retry sent

/-- The method `dispatch` runs its body with `this.resolve` as callee. -/
theorem dispatch_eq (W : Env) (self : Navigator) (req : Option JsObj) (sent : List JsObj) :
    dispatch W self req sent = dispatchBody W (resolve W) self req sent := rfl

/-! ## Resolution of a Failed or a warm Navigator -/

/-- A Failed context is not Resolved. -/
theorem isResolved_of_isBad {c : NavigatorContext} (h : c.isBad = true) : c.isResolved = false := by
  simp only [NavigatorContext.isBad, NavigatorContext.FAILED, beq_iff_eq] at h
  simp [NavigatorContext.isResolved, NavigatorContext.RESOLVED, h]

/-- A Failed Navigator resolved without retry: the third branch of `resolve`. -/
theorem resolve_failed (W : Env) (self : Navigator) (nohead : Bool) (sent : List JsObj)
    (h : self.context.isBad = true) :
    resolve W self { retry := false, nohead := nohead } sent
      = { nav := self, sent := sent, outcome := .rejected self.context.getError } := by
  rw [resolve_eq]
  simp [resolveBody, h, isResolved_of_isBad h]

/-- A Resolved Navigator with a link cache: the first branch of `resolve`. -/
theorem resolve_warm (W : Env) (self : Navigator) (options : ResolveOptions) (sent : List JsObj)
    (hres : self.context.isResolved = true) (hl : self.links ≠ none) :
    resolve W self options sent
      = { nav := self, sent := sent, outcome := .fulfilled self.context.getUrl } := by
  rw [resolve_eq]
  simp [resolveBody, hres, hl]

/-- C1: for a Navigator whose context is Failed, resolve without the retry option
rejects with exactly the stored error, hands no request to the transport (the
list of sent requests is unchanged, so none was sent for an ancestor either)
and leaves the Navigator, its context state and its stored error as they were. -/
theorem C1_failed_resolve_rejects_with_stored_error (W : Env) (self : Navigator)
    (nohead : Bool) (sent : List JsObj) (h : self.context.isBad = true) :
    (resolve W self { retry := false, nohead := nohead } sent).outcome
        = .rejected self.context.getError
      ∧ (resolve W self { retry := false, nohead := nohead } sent).sent = sent
      ∧ (resolve W self { retry := false, nohead := nohead } sent).nav = self
      ∧ (resolve W self { retry := false, nohead := nohead } sent).nav.context.isBad = true
      ∧ (resolve W self { retry := false, nohead := nohead } sent).nav.context.getError
        = self.context.getError := by
  rw [resolve_failed W self nohead sent h]
  exact ⟨rfl, rfl, rfl, h, rfl⟩

/-- The theorem above on a relative Navigator that failed with a 404 response. -/
theorem C1_witness :
    (failedChild (demoEnv alwaysOk)).context.isBad = true
      ∧ (resolve (demoEnv alwaysOk) (failedChild (demoEnv alwaysOk))
          { retry := false, nohead := false } []).outcome
        = .rejected (.response { status := 404, reason := "not found", link := none })
      ∧ (resolve (demoEnv alwaysOk) (failedChild (demoEnv alwaysOk))
          { retry := false, nohead := false } []).sent = [] :=
  have h := C1_failed_resolve_rejects_with_stored_error (demoEnv alwaysOk)
    (failedChild (demoEnv alwaysOk)) false [] (by decide)
  ⟨by decide, h.1, h.2.1⟩

/-- C2: for a Navigator whose context is Resolved and whose link cache is not
null (the empty list included), two consecutive calls of resolve({nohead:true})
hand no request to the transport, both fulfill with context.getUrl(), and leave
the Navigator (context state and link cache included) unchanged. -/
theorem C2_warm_resolve_twice_is_free (W : Env) (self : Navigator) (sent : List JsObj)
    (hres : self.context.isResolved = true) (hl : self.links ≠ none) :
    (resolve W self { retry := false, nohead := true } sent).sent = sent
      ∧ (resolve W self { retry := false, nohead := true } sent).outcome
        = .fulfilled self.context.getUrl
      ∧ (resolve W self { retry := false, nohead := true } sent).nav = self
      ∧ (resolve W (resolve W self { retry := false, nohead := true } sent).nav
          { retry := false, nohead := true }
          (resolve W self { retry := false, nohead := true } sent).sent).sent = sent
      ∧ (resolve W (resolve W self { retry := false, nohead := true } sent).nav
          { retry := false, nohead := true }
          (resolve W self { retry := false, nohead := true } sent).sent).outcome
        = .fulfilled self.context.getUrl
      ∧ (resolve W (resolve W self { retry := false, nohead := true } sent).nav
          { retry := false, nohead := true }
          (resolve W self { retry := false, nohead := true } sent).sent).nav = self := by
  have e := resolve_warm W self { retry := false, nohead := true } sent hres hl
  rw [e]
  simp only []
  rw [e]
  simp

/-- The theorem above on a relative Navigator resolved to `/a` with an empty
link cache, over a transport that would reject any request. -/
theorem C2_witness :
    (resolve (demoEnv alwaysFail500) (warmChild (demoEnv alwaysFail500))
        { retry := false, nohead := true } []).sent = []
      ∧ (resolve (demoEnv alwaysFail500) (warmChild (demoEnv alwaysFail500))
        { retry := false, nohead := true } []).outcome = .fulfilled (some "/a") :=
  have h := C2_warm_resolve_twice_is_free (demoEnv alwaysFail500)
    (warmChild (demoEnv alwaysFail500)) [] (by decide) (by decide)
  ⟨h.1, h.2.1⟩

/-! ## Single steps of dispatch and resolve -/

theorem urlTruthy_ofUrl {u : Option String} (h : urlTruthy u = true) :
    (JsVal.ofUrl u).truthy = true := by
  cases u with
  | none => simp [urlTruthy] at h
  | some s => simpa [urlTruthy, JsVal.ofUrl, JsVal.truthy] using h

theorem dispatchSucceed_nav (W : Env) (nav : Navigator) (sent : List JsObj) (res : Response) :
    (dispatchSucceed W nav sent res).nav
      = (nav.setContext (nav.context.setResolved W none)).setLinks (linksAfter nav.links res) := by
  cases nav <;> cases hl : res.link <;>
    simp [dispatchSucceed, linksAfter, hl, Navigator.setContext, Navigator.setLinks, Navigator.links] <;>
    split <;> simp_all

/-- A dispatch of a probe with a truthy url hands exactly that probe to the
transport and runs the continuation matching the reply. -/
theorem dispatch_probe (W : Env) (self : Navigator) (u : Option String) (sent : List JsObj)
    (hu : urlTruthy u = true) :
    dispatch W self (some (headRequest u)) sent
      = match W.dispatch sent (probeRequest W self u) with
        | .ok res => dispatchSucceed W self (sent ++ [probeRequest W self u]) res
        | .fail res => dispatchFail W self (sent ++ [probeRequest W self u]) (.response res) := by
  have h1 := dispatchRequest_head_url W self u hu
  have h2 := urlTruthy_ofUrl hu
  simp only [dispatch, dispatchBody, dispatchTarget, h1, h2, if_true, probeRequest]

/-- An absolute Navigator without link cache, resolved with `nohead`: fulfilled
with its address, nothing sent. -/
theorem resolve_absolute_nohead (W : Env) (self : Navigator) (retry : Bool) (sent : List JsObj)
    (habs : self.context.isAbsolute = true) (hl : self.links = none)
    (hbad : self.context.isBad = false) :
    resolve W self { retry := retry, nohead := true } sent
      = { nav := self.setContext self.context.resetResolvedState, sent := sent,
          outcome := .fulfilled self.context.getUrl } := by
  rw [resolve_eq]
  have h1 : (self.setContext self.context.resetResolvedState).context.isRelative = false := by
    cases self <;>
      simpa [Navigator.setContext, Navigator.context, NavigatorContext.isRelative,
        NavigatorContext.resetResolvedState, NavigatorContext.isAbsolute] using habs
  have h2 : (self.setContext self.context.resetResolvedState).context.getUrl
      = self.context.getUrl := by
    cases self <;> rfl
  simp [resolveBody, hl, hbad, h1, h2]

/-- An absolute Navigator without link cache, resolved with a probe that succeeds. -/
theorem resolve_absolute_head_ok (W : Env) (self : Navigator) (retry : Bool) (sent : List JsObj)
    (res : Response)
    (habs : self.context.isAbsolute = true) (hl : self.links = none)
    (hbad : self.context.isBad = false) (hu : urlTruthy self.context.getUrl = true)
    (hok : W.dispatch sent
      (probeRequest W (self.setContext self.context.resetResolvedState) self.context.getUrl)
        = .ok res) :
    resolve W self { retry := retry, nohead := false } sent
      = { nav := ((self.setContext self.context.resetResolvedState).setContext
              (self.context.resetResolvedState.setResolved W none)).setLinks (linksAfter none res),
          sent := sent ++
            [probeRequest W (self.setContext self.context.resetResolvedState) self.context.getUrl],
          outcome := .fulfilled self.context.getUrl } := by
  rw [resolve_eq]
  have h1 : (self.setContext self.context.resetResolvedState).context.isRelative = false := by
    cases self <;>
      simpa [Navigator.setContext, Navigator.context, NavigatorContext.isRelative,
        NavigatorContext.resetResolvedState, NavigatorContext.isAbsolute] using habs
  have h2 : (self.setContext self.context.resetResolvedState).context.getUrl
      = self.context.getUrl := by
    cases self <;> rfl
  have h3 : (self.setContext self.context.resetResolvedState).context
      = self.context.resetResolvedState := by
    cases self <;> rfl
  have h4 : (self.setContext self.context.resetResolvedState).links = self.links := by
    cases self <;> rfl
  have h5 : ∀ (n : Navigator) (c : NavigatorContext) (l : Option (List Link)),
      ((n.setContext c).setLinks l).context = c := by
    intro n c l
    cases n <;> rfl
  have h6 : (self.context.resetResolvedState.setResolved W none).getUrl = self.context.getUrl := rfl
  simp only [resolveBody, hl, hbad, h1, h2]
  simp only [bne_self_eq_false, Bool.false_and, Bool.false_eq_true, if_false, Bool.true_or,
    beq_self_eq_true, if_true]
  rw [dispatch_probe W _ _ sent hu, hok]
  simp only [dispatchSucceed_nav, h3, h4, hl, h5, h6]
  simp [dispatchSucceed]

/-- The Navigator `self` as a relative resolution leaves it on success: context
reset then resolved to `url`, parent replaced by its state after resolution. -/
theorem relative_context (self up : Navigator) :
    ((self.setContext self.context.resetResolvedState).setParent up).context
      = self.context.resetResolvedState := by
  cases self <;> rfl

/-- A relative Navigator that goes through resolution, whose parent resolves and
whose query finds no link: rejected with the pseudo-status response, nothing
sent beyond what the parent sent. -/
theorem resolve_relative_notfound (W : Env) (self p : Navigator) (options : ResolveOptions)
    (sent : List JsObj) (v : Option String)
    (hrel : self.context.isRelative = true) (hp : self.parentNavigator = some p)
    (hslow : (self.links != none && (self.context.isResolved
      || (self.context.isAbsolute && self.context.isBad == false))) = false)
    (hgo : (self.context.isBad == false || (self.context.isBad && options.retry)) = true)
    (hup : (resolve W p { retry := options.retry, nohead := false } sent).outcome = .fulfilled v)
    (hno : urlTruthy (lookupLink W (resolve W p { retry := options.retry, nohead := false } sent).nav
      self.context.resetResolvedState) = false) :
    resolve W self options sent
      = resolveFail ((self.setContext self.context.resetResolvedState).setParent
            (resolve W p { retry := options.retry, nohead := false } sent).nav)
          (resolve W p { retry := options.retry, nohead := false } sent).sent
          (.response (linkNotFound W)) := by
  rw [resolve_eq]
  have h1 : (self.setContext self.context.resetResolvedState).context.isRelative = true := by
    cases self <;>
      simpa [Navigator.setContext, Navigator.context, NavigatorContext.isRelative,
        NavigatorContext.resetResolvedState] using hrel
  have h2 : (self.setContext self.context.resetResolvedState).parentNavigator = some p := by
    cases self <;> simp_all [Navigator.setContext, Navigator.parentNavigator]
  simp only [resolveBody, hslow, hgo, h1, h2, hup, relative_context, hno]
  simp

/-- A relative Navigator that goes through resolution with `nohead`, whose parent
resolves and whose query finds a link: fulfilled with the link address, nothing
sent beyond what the parent sent. -/
theorem resolve_relative_nohead_found (W : Env) (self p : Navigator) (retry : Bool)
    (sent : List JsObj) (v : Option String)
    (hrel : self.context.isRelative = true) (hp : self.parentNavigator = some p)
    (hslow : (self.links != none && (self.context.isResolved
      || (self.context.isAbsolute && self.context.isBad == false))) = false)
    (hgo : (self.context.isBad == false || (self.context.isBad && retry)) = true)
    (hup : (resolve W p { retry := retry, nohead := false } sent).outcome = .fulfilled v)
    (hyes : urlTruthy (lookupLink W (resolve W p { retry := retry, nohead := false } sent).nav
      self.context.resetResolvedState) = true) :
    resolve W self { retry := retry, nohead := true } sent
      = { nav := ((self.setContext self.context.resetResolvedState).setParent
              (resolve W p { retry := retry, nohead := false } sent).nav).setContext
            (self.context.resetResolvedState.setResolved W
              (lookupLink W (resolve W p { retry := retry, nohead := false } sent).nav
                self.context.resetResolvedState)),
          sent := (resolve W p { retry := retry, nohead := false } sent).sent,
          outcome := .fulfilled (lookupLink W (resolve W p { retry := retry, nohead := false } sent).nav
            self.context.resetResolvedState) } := by
  rw [resolve_eq]
  have h1 : (self.setContext self.context.resetResolvedState).context.isRelative = true := by
    cases self <;>
      simpa [Navigator.setContext, Navigator.context, NavigatorContext.isRelative,
        NavigatorContext.resetResolvedState] using hrel
  have h2 : (self.setContext self.context.resetResolvedState).parentNavigator = some p := by
    cases self <;> simp_all [Navigator.setContext, Navigator.parentNavigator]
  simp only [resolveBody, hslow, hgo, h1, h2, hup, relative_context, hyes]
  simp

/-- A relative Navigator that goes through resolution without `nohead`, whose
parent resolves, whose query finds a link and whose probe succeeds. -/
theorem resolve_relative_head_ok (W : Env) (self p : Navigator) (retry : Bool)
    (sent : List JsObj) (v : Option String) (res : Response)
    (hrel : self.context.isRelative = true) (hp : self.parentNavigator = some p)
    (hslow : (self.links != none && (self.context.isResolved
      || (self.context.isAbsolute && self.context.isBad == false))) = false)
    (hgo : (self.context.isBad == false || (self.context.isBad && retry)) = true)
    (hup : (resolve W p { retry := retry, nohead := false } sent).outcome = .fulfilled v)
    (hyes : urlTruthy (lookupLink W (resolve W p { retry := retry, nohead := false } sent).nav
      self.context.resetResolvedState) = true)
    (hok : W.dispatch (resolve W p { retry := retry, nohead := false } sent).sent
      (probeRequest W self (lookupLink W (resolve W p { retry := retry, nohead := false } sent).nav
        self.context.resetResolvedState)) = .ok res) :
    resolve W self { retry := retry, nohead := false } sent
      = { nav := (((self.setContext self.context.resetResolvedState).setParent
              (resolve W p { retry := retry, nohead := false } sent).nav).setContext
            ((self.context.resetResolvedState.setResolved W
              (lookupLink W (resolve W p { retry := retry, nohead := false } sent).nav
                self.context.resetResolvedState)).setResolved W none)).setLinks
            (linksAfter self.links res),
          sent := (resolve W p { retry := retry, nohead := false } sent).sent ++
            [probeRequest W self (lookupLink W (resolve W p { retry := retry, nohead := false } sent).nav
              self.context.resetResolvedState)],
          outcome := .fulfilled (lookupLink W (resolve W p { retry := retry, nohead := false } sent).nav
            self.context.resetResolvedState) } := by
  rw [resolve_eq]
  have h1 : (self.setContext self.context.resetResolvedState).context.isRelative = true := by
    cases self <;>
      simpa [Navigator.setContext, Navigator.context, NavigatorContext.isRelative,
        NavigatorContext.resetResolvedState] using hrel
  have h2 : (self.setContext self.context.resetResolvedState).parentNavigator = some p := by
    cases self <;> simp_all [Navigator.setContext, Navigator.parentNavigator]
  have h3 : ∀ (n q : Navigator) (c1 c2 : NavigatorContext) (u : Option String),
      probeRequest W (((n.setContext c1).setParent q).setContext c2) u = probeRequest W n u := by
    intro n q c1 c2 u
    cases n <;> rfl
  have h4 : ∀ (n q : Navigator) (c1 c2 : NavigatorContext),
      (((n.setContext c1).setParent q).setContext c2).links = n.links := by
    intro n q c1 c2
    cases n <;> rfl
  have h5 : ∀ (n : Navigator) (c1 c2 : NavigatorContext),
      ((n.setContext c1).setContext c2) = n.setContext c2 := by
    intro n c1 c2
    cases n <;> rfl
  have h6 : ∀ (n : Navigator) (c : NavigatorContext), (n.setContext c).context = c := by
    intro n c
    cases n <;> rfl
  simp only [resolveBody, hslow, hgo, h1, h2, hup, relative_context, hyes]
  simp only [Bool.false_eq_true, if_false, if_true]
  rw [dispatch_probe W _ _ _ hyes, h3, hok]
  simp only [dispatchSucceed_nav, h4, h5, h6]
  simp [dispatchSucceed]

/-! ## The cold chain root, a, b -/

theorem probeRequest_no_defaults (W : Env) (self : Navigator) (u : String)
    (h : self.requestDefaults = none) : probeRequest W self (some u) = probe u := by
  simp [probeRequest, dispatchRequest, h, headRequest, JsObj.set, JsObj.withAttrs, JsObj.attrs,
    setProp, JsVal.ofUrl, probe]

/-- Counterexample to C3 as stated: on the chain root, a, b with the transport
of the claim, resolve on the leaf with no options does not stop after two HEAD
requests: a third one goes to `/a/b`. -/
theorem C3_counterexample :
    ¬ ((resolve (demoEnv abTransport) (abChain (demoEnv abTransport) "https://foobar.com")
          { retry := false, nohead := false } []).outcome = .fulfilled (some "/a/b")
        ∧ (resolve (demoEnv abTransport) (abChain (demoEnv abTransport) "https://foobar.com")
          { retry := false, nohead := false } []).sent
          = [probe "https://foobar.com", probe "/a"]) := by
  decide

/-- C3 (amended): on the cold chain root.follow({rel:'a'}).follow({rel:'b'}) over
an absolute root, with a transport that answers the root probe with the link
a -> /a and the /a probe with the link b -> /a/b, resolve({nohead:true}) on the
leaf fulfills with /a/b after exactly two HEAD requests, the first to the root
address and the second to /a. With no options, resolve on the leaf sends a
third HEAD request, to /a/b itself, and fulfills with /a/b when it succeeds. -/
theorem C3_cold_chain_probes (W : Env) (root : String) (ra rb rc : Response)
    (hroot : W.isAbsUri root = true) (hne : root ≠ "")
    (ha : W.dispatch [] (probe root) = .ok ra)
    (hla : ra.link = some [{ rel := "a", href := "/a", attrs := [] }])
    (hb : W.dispatch [probe root] (probe "/a") = .ok rb)
    (hlb : rb.link = some [{ rel := "b", href := "/a/b", attrs := [] }])
    (hc : W.dispatch [probe root, probe "/a"] (probe "/a/b") = .ok rc)
    (hqa : W.queryLinks1 (some [{ rel := "a", href := "/a", attrs := [] }]) [("rel", "a")]
      = some { rel := "a", href := "/a", attrs := [] })
    (hea : W.expand "/a" [("rel", "a")] = "/a")
    (hqb : W.queryLinks1 (some [{ rel := "b", href := "/a/b", attrs := [] }]) [("rel", "b")]
      = some { rel := "b", href := "/a/b", attrs := [] })
    (heb : W.expand "/a/b" [("rel", "b")] = "/a/b") :
    (resolve W (abChain W root) { retry := false, nohead := true } []).outcome
        = .fulfilled (some "/a/b")
      ∧ (resolve W (abChain W root) { retry := false, nohead := true } []).sent
        = [probe root, probe "/a"]
      ∧ (resolve W (abChain W root) { retry := false, nohead := false } []).outcome
        = .fulfilled (some "/a/b")
      ∧ (resolve W (abChain W root) { retry := false, nohead := false } []).sent
        = [probe root, probe "/a", probe "/a/b"] := by
  have hchain : abChain W root
      = .child (NavigatorContext.new W (.rel [("rel", "b")]))
          (.child (NavigatorContext.new W (.rel [("rel", "a")]))
            (rootNavigator W root) none none) none none := by
    simp [abChain, follow, followLoop, followStep, rootNavigator, Navigator.requestDefaults]
  have hctx : NavigatorContext.new W (.uri root)
      = { query := .uri root, resolveState := 0, error := .null, queryIsAbsolute := true,
          url := some root, urld := some (W.parseUri root) } := by
    simp [NavigatorContext.new, hroot, NavigatorContext.UNRESOLVED]
  have hut : urlTruthy (some root) = true := by simpa [urlTruthy] using hne
  have hpr : ∀ (c : NavigatorContext) (l : Option (List Link)) (u : String),
      probeRequest W (.orphan c l none) (some u) = probe u :=
    fun c l u => probeRequest_no_defaults W _ u rfl
  have hp0 : probeRequest W ((rootNavigator W root).setContext
      (rootNavigator W root).context.resetResolvedState) (some root) = probe root :=
    hpr _ _ root
  have hpc : ∀ (c : NavigatorContext) (p : Navigator) (l : Option (List Link)) (u : String),
      probeRequest W (.child c p l none) (some u) = probe u :=
    fun c p l u => probeRequest_no_defaults W _ u rfl
  -- the root is probed first
  have h0 := resolve_absolute_head_ok W (rootNavigator W root) false [] ra
    (by simp [rootNavigator, hctx, Navigator.context, NavigatorContext.isAbsolute])
    rfl
    (by simp [rootNavigator, hctx, Navigator.context, NavigatorContext.isBad,
      NavigatorContext.FAILED])
    (by simpa [rootNavigator, hctx, Navigator.context, NavigatorContext.getUrl] using hut)
    (by
      have e : (rootNavigator W root).context.getUrl = some root := by
        simp [rootNavigator, hctx, Navigator.context, NavigatorContext.getUrl]
      rw [e, hp0]
      simpa using ha)
  have e0 : (rootNavigator W root).context.getUrl = some root := by
    simp [rootNavigator, hctx, Navigator.context, NavigatorContext.getUrl]
  rw [e0, hp0] at h0
  -- the hop a finds its link in the root and is probed second
  have hlka : lookupLink W (resolve W (rootNavigator W root) { retry := false, nohead := false } []).nav
      (NavigatorContext.new W (.rel [("rel", "a")])).resetResolvedState = some "/a" := by
    rw [h0]
    simp [lookupLink, NavigatorContext.new, NavigatorContext.resetResolvedState, Query.truthy,
      rootNavigator, Navigator.setContext, Navigator.setLinks, Navigator.links, linksAfter, hla,
      hqa, hea]
  have h1 := resolve_relative_head_ok W
    (.child (NavigatorContext.new W (.rel [("rel", "a")])) (rootNavigator W root) none none)
    (rootNavigator W root) false [] (some root) rb
    (by simp [Navigator.context, NavigatorContext.new, NavigatorContext.isRelative])
    rfl
    (by simp [Navigator.links])
    (by simp [Navigator.context, NavigatorContext.new, NavigatorContext.isBad,
      NavigatorContext.UNRESOLVED, NavigatorContext.FAILED])
    (by rw [h0])
    (by simp only [Navigator.context]; rw [hlka]; decide)
    (by
      simp only [Navigator.context]
      rw [hlka, hpc, h0]
      simpa using hb)
  simp only [Navigator.context] at h1
  rw [hlka, hpc] at h1
  have hs1 : (resolve W (.child (NavigatorContext.new W (.rel [("rel", "a")]))
      (rootNavigator W root) none none) { retry := false, nohead := false } []).sent
      = [probe root, probe "/a"] := by
    rw [h1, h0]
    rfl
  -- the leaf b finds its link in a
  have hlkb : lookupLink W (resolve W (.child (NavigatorContext.new W (.rel [("rel", "a")]))
      (rootNavigator W root) none none) { retry := false, nohead := false } []).nav
      (NavigatorContext.new W (.rel [("rel", "b")])).resetResolvedState = some "/a/b" := by
    rw [h1]
    simp [lookupLink, NavigatorContext.new, NavigatorContext.resetResolvedState, Query.truthy,
      Navigator.setContext, Navigator.setLinks, Navigator.setParent, Navigator.links, linksAfter,
      hlb, hqb, heb]
  have h2 := resolve_relative_nohead_found W
    (.child (NavigatorContext.new W (.rel [("rel", "b")]))
      (.child (NavigatorContext.new W (.rel [("rel", "a")])) (rootNavigator W root) none none)
      none none)
    (.child (NavigatorContext.new W (.rel [("rel", "a")])) (rootNavigator W root) none none)
    false [] (some "/a")
    (by simp [Navigator.context, NavigatorContext.new, NavigatorContext.isRelative])
    rfl
    (by simp [Navigator.links])
    (by simp [Navigator.context, NavigatorContext.new, NavigatorContext.isBad,
      NavigatorContext.UNRESOLVED, NavigatorContext.FAILED])
    (by rw [h1])
    (by simp only [Navigator.context]; rw [hlkb]; decide)
  have h3 := resolve_relative_head_ok W
    (.child (NavigatorContext.new W (.rel [("rel", "b")]))
      (.child (NavigatorContext.new W (.rel [("rel", "a")])) (rootNavigator W root) none none)
      none none)
    (.child (NavigatorContext.new W (.rel [("rel", "a")])) (rootNavigator W root) none none)
    false [] (some "/a") rc
    (by simp [Navigator.context, NavigatorContext.new, NavigatorContext.isRelative])
    rfl
    (by simp [Navigator.links])
    (by simp [Navigator.context, NavigatorContext.new, NavigatorContext.isBad,
      NavigatorContext.UNRESOLVED, NavigatorContext.FAILED])
    (by rw [h1])
    (by simp only [Navigator.context]; rw [hlkb]; decide)
    (by
      simp only [Navigator.context]
      rw [hlkb, hpc, hs1]
      exact hc)
  simp only [Navigator.context] at h2 h3
  rw [hlkb] at h2 h3
  rw [hpc, hs1] at h3
  rw [hs1] at h2
  rw [hchain, h2, h3]
  exact ⟨rfl, rfl, rfl, rfl⟩

/-- The theorem above on the chain over `https://foobar.com` with the transport
`abTransport`. -/
theorem C3_witness :
    (resolve (demoEnv abTransport) (abChain (demoEnv abTransport) "https://foobar.com")
        { retry := false, nohead := true } []).outcome = .fulfilled (some "/a/b")
      ∧ (resolve (demoEnv abTransport) (abChain (demoEnv abTransport) "https://foobar.com")
        { retry := false, nohead := true } []).sent = [probe "https://foobar.com", probe "/a"]
      ∧ (resolve (demoEnv abTransport) (abChain (demoEnv abTransport) "https://foobar.com")
        { retry := false, nohead := false } []).outcome = .fulfilled (some "/a/b")
      ∧ (resolve (demoEnv abTransport) (abChain (demoEnv abTransport) "https://foobar.com")
        { retry := false, nohead := false } []).sent
        = [probe "https://foobar.com", probe "/a", probe "/a/b"] :=
  C3_cold_chain_probes (demoEnv abTransport) "https://foobar.com"
    { status := 200, reason := "ok", link := some [{ rel := "a", href := "/a", attrs := [] }] }
    { status := 200, reason := "ok", link := some [{ rel := "b", href := "/a/b", attrs := [] }] }
    { status := 204, reason := "no content", link := none }
    (by decide) (by decide) (by decide) rfl (by decide) rfl (by decide) (by decide) rfl
    (by decide) rfl

/-! ## Resolution of a cold chain -/

theorem setResolved_getUrl (W : Env) (c : NavigatorContext) (u : Option String)
    (h : urlTruthy u = true) : (c.setResolved W u).getUrl = u := by
  cases u with
  | none => simp [urlTruthy] at h
  | some s => simp [NavigatorContext.setResolved, h, NavigatorContext.getUrl]

theorem setResolved_none_getUrl (W : Env) (c : NavigatorContext) :
    (c.setResolved W none).getUrl = c.getUrl := rfl

theorem setResolved_query (W : Env) (c : NavigatorContext) (u : Option String) :
    (c.setResolved W u).query = c.query := by
  cases u with
  | none => rfl
  | some s =>
    simp only [NavigatorContext.setResolved]
    split <;> rfl

/-- A cold chain whose lookups match, over a transport that answers every
request with success: resolve without `nohead` fulfills with the address of the
Navigator, and has sent one probe to every ancestor, root first, and then one
to the Navigator itself. -/
theorem cold_resolve (W : Env) (hok : ∀ s q, ∃ res, W.dispatch s q = .ok res) :
    ∀ (nav : Navigator) (retry : Bool) (sent : List JsObj),
      cold nav = true → lookupsMatch W nav retry sent = true →
      (resolve W nav { retry := retry, nohead := false } sent).outcome
          = .fulfilled (resolve W nav { retry := retry, nohead := false } sent).nav.context.getUrl
        ∧ (resolve W nav { retry := retry, nohead := false } sent).sent
          = sent ++ (resolve W nav { retry := retry, nohead := false } sent).nav.ancestors.map (probeOf W)
            ++ [probeOf W (resolve W nav { retry := retry, nohead := false } sent).nav]
        ∧ urlTruthy (resolve W nav { retry := retry, nohead := false } sent).nav.context.getUrl = true
        ∧ (∀ a ∈ (resolve W nav { retry := retry, nohead := false } sent).nav.ancestors,
            urlTruthy a.context.getUrl = true)
        ∧ (resolve W nav { retry := retry, nohead := false } sent).nav.ancestors.map
            (fun a => a.context.query) = nav.ancestors.map (fun a => a.context.query)
        ∧ (resolve W nav { retry := retry, nohead := false } sent).nav.context.query
          = nav.context.query := by
  intro nav
  induction nav with
  | orphan c l d =>
    intro retry sent hc _
    simp only [cold, Bool.and_eq_true, beq_iff_eq, Option.isNone_iff_eq_none] at hc
    obtain ⟨⟨⟨habs, hst⟩, hl⟩, hu⟩ := hc
    obtain ⟨res, hres⟩ := hok sent
      (probeRequest W ((Navigator.orphan c l d).setContext
        (Navigator.orphan c l d).context.resetResolvedState) (Navigator.orphan c l d).context.getUrl)
    have hbad : (Navigator.orphan c l d).context.isBad = false := by
      simp [Navigator.context, NavigatorContext.isBad, hst, NavigatorContext.UNRESOLVED,
        NavigatorContext.FAILED]
    rw [resolve_absolute_head_ok W (.orphan c l d) retry sent res habs (by simpa [Navigator.links] using hl)
      hbad hu hres]
    refine ⟨rfl, ?_, ?_, ?_, rfl, rfl⟩
    · simp [Navigator.setContext, Navigator.setLinks, Navigator.ancestors, probeOf, probeRequest,
        dispatchRequest, Navigator.requestDefaults, Navigator.context, setResolved_none_getUrl,
        NavigatorContext.resetResolvedState, NavigatorContext.getUrl, NavigatorContext.setResolved]
    · simpa [Navigator.setContext, Navigator.setLinks, Navigator.context,
        NavigatorContext.resetResolvedState, NavigatorContext.getUrl,
        NavigatorContext.setResolved] using hu
    · simp [Navigator.setContext, Navigator.setLinks, Navigator.ancestors]
  | child c p l d ih =>
    intro retry sent hc hm
    simp only [cold, Bool.and_eq_true, beq_iff_eq, Option.isNone_iff_eq_none] at hc
    obtain ⟨⟨⟨hrel, hst⟩, hl⟩, hcp⟩ := hc
    simp only [lookupsMatch, Bool.and_eq_true] at hm
    obtain ⟨hmp, hyes⟩ := hm
    obtain ⟨h1, h2, h3, h4, h5, h6⟩ := ih retry sent hcp hmp
    obtain ⟨res, hres⟩ := hok (resolve W p { retry := retry, nohead := false } sent).sent
      (probeRequest W (.child c p l d)
        (lookupLink W (resolve W p { retry := retry, nohead := false } sent).nav
          (Navigator.child c p l d).context.resetResolvedState))
    have hbad : (Navigator.child c p l d).context.isBad = false := by
      simp [Navigator.context, NavigatorContext.isBad, hst, NavigatorContext.UNRESOLVED,
        NavigatorContext.FAILED]
    have hstep := resolve_relative_head_ok W (.child c p l d) p retry sent _ res hrel rfl
      (by simp [Navigator.links, hl]) (by simp [hbad]) h1 hyes hres
    rw [hstep]
    simp only [Navigator.setContext, Navigator.setParent, Navigator.setLinks, Navigator.context,
      Navigator.ancestors, setResolved_none_getUrl, setResolved_getUrl W _ _ hyes,
      List.map_append, List.map_cons, List.map_nil, setResolved_query]
    refine ⟨trivial, ?_, hyes, ?_, ?_, ?_⟩
    · rw [h2]
      simp [probeOf, probeRequest, dispatchRequest, Navigator.requestDefaults, Navigator.context,
        setResolved_none_getUrl, setResolved_getUrl W _ _ hyes]
    · intro a ha
      rcases List.mem_append.mp ha with h | h
      · exact h4 a h
      · simp only [List.mem_singleton] at h
        subst h
        exact h3
    · simp only [Navigator.context] at h5 h6
      rw [h5, h6]
    · rfl

theorem JsObj.get_set_same (o : JsObj) (k : String) (v : JsVal) : (o.set k v).get k = v := by
  cases o <;> simp [JsObj.set, JsObj.get, JsObj.withAttrs, JsObj.attrs, getProp_setProp_same]

theorem JsObj.get_set_ne (o : JsObj) (k k2 : String) (v : JsVal) (h : k ≠ k2) :
    (o.set k2 v).get k = o.get k := by
  cases o <;> simp [JsObj.set, JsObj.get, JsObj.withAttrs, JsObj.attrs, getProp_setProp_ne _ _ _ _ h]

/-- A probe is a HEAD request. -/
theorem probeRequest_method (W : Env) (self : Navigator) (u : Option String) :
    (probeRequest W self u).get "method" = .str "HEAD" := by
  unfold probeRequest
  rw [JsObj.get_set_ne _ _ _ _ (by decide), dispatchRequest_head_method]

/-- A probe goes to the url it was made for. -/
theorem probeRequest_url (W : Env) (self : Navigator) (u : Option String) :
    (probeRequest W self u).get "url" = JsVal.ofUrl u := by
  unfold probeRequest
  rw [JsObj.get_set_same]

theorem ancestors_length (nav : Navigator) : nav.ancestors.length = nav.depth := by
  induction nav with
  | orphan c l d => rfl
  | child c p l d ih => simp [Navigator.ancestors, Navigator.depth, ih]

/-- A dispatch that has no url to start from and resolves its Navigator to `r`
with success, over a transport that answers with success. -/
theorem dispatch_resolved_ok (W : Env) (self : Navigator) (req : Option JsObj) (sent : List JsObj)
    (r : Run (Option String)) (u : Option String) (res : Response)
    (hurl : ((dispatchRequest W self req).get "url").truthy = false)
    (hr : resolve W self
      { retry := ((dispatchRequest W self req).get "retry").truthy, nohead := true } sent = r)
    (hu : r.outcome = .fulfilled u)
    (hres : W.dispatch r.sent ((dispatchRequest W self req).set "url" (JsVal.ofUrl u)) = .ok res) :
    dispatch W self req sent
      = dispatchSucceed W r.nav
          (r.sent ++ [(dispatchRequest W self req).set "url" (JsVal.ofUrl u)]) res := by
  simp only [dispatch, dispatchBody, dispatchTarget, hurl, hr, hu]
  simp only [Bool.false_eq_true, if_false]
  rw [hres]

theorem dispatchSucceed_context (W : Env) (nav : Navigator) (sent : List JsObj) (res : Response) :
    (dispatchSucceed W nav sent res).nav.context = nav.context.setResolved W none := by
  rw [dispatchSucceed_nav]
  cases nav <;> rfl

theorem dispatchSucceed_ancestors (W : Env) (nav : Navigator) (sent : List JsObj) (res : Response) :
    (dispatchSucceed W nav sent res).nav.ancestors = nav.ancestors := by
  rw [dispatchSucceed_nav]
  cases nav <;> rfl

/-- C4: for a cold chain (an absolute root followed by d relative hops, every
context Unresolved, every link cache null), over a transport that answers every
request with success and when every link lookup matches, a dispatch on the leaf
whose request has no url fulfills and hands exactly d+1 requests to the
transport: one HEAD probe to each of the d ancestors of the leaf, root first,
each to the address of that ancestor, followed by the request of the caller sent
to the resolved address of the leaf. No probe goes to the leaf itself. -/
theorem C4_cold_dispatch_probes_each_ancestor_once (W : Env) (leaf : Navigator)
    (req : Option JsObj) (sent : List JsObj)
    (hok : ∀ s q, ∃ res, W.dispatch s q = .ok res)
    (hcold : cold leaf = true)
    (hurl : ((dispatchRequest W leaf req).get "url").truthy = false)
    (hmatch : lookupsMatch W leaf ((dispatchRequest W leaf req).get "retry").truthy sent = true) :
    (∃ res, (dispatch W leaf req sent).outcome = .fulfilled res)
      ∧ (dispatch W leaf req sent).sent
        = sent ++ (dispatch W leaf req sent).nav.ancestors.map (probeOf W)
          ++ [(dispatchRequest W leaf req).set "url"
                (JsVal.ofUrl (dispatch W leaf req sent).nav.context.getUrl)]
      ∧ (dispatch W leaf req sent).sent.length = sent.length + leaf.depth + 1
      ∧ (dispatch W leaf req sent).nav.ancestors.map (fun a => a.context.query)
        = leaf.ancestors.map (fun a => a.context.query)
      ∧ (∀ a ∈ (dispatch W leaf req sent).nav.ancestors,
          (probeOf W a).get "method" = .str "HEAD"
            ∧ (probeOf W a).get "url" = JsVal.ofUrl a.context.getUrl
            ∧ urlTruthy a.context.getUrl = true) := by
  -- the resolution started by the dispatch
  have key : ∃ (r : Run (Option String)),
      resolve W leaf
          { retry := ((dispatchRequest W leaf req).get "retry").truthy, nohead := true } sent = r
        ∧ r.outcome = .fulfilled r.nav.context.getUrl
        ∧ r.sent = sent ++ r.nav.ancestors.map (probeOf W)
        ∧ r.nav.ancestors.map (fun a => a.context.query)
          = leaf.ancestors.map (fun a => a.context.query)
        ∧ (∀ a ∈ r.nav.ancestors, urlTruthy a.context.getUrl = true) := by
    cases leaf with
    | orphan c l d =>
      simp only [cold, Bool.and_eq_true, beq_iff_eq, Option.isNone_iff_eq_none] at hcold
      obtain ⟨⟨⟨habs, hst⟩, hl⟩, _⟩ := hcold
      have hbad : (Navigator.orphan c l d).context.isBad = false := by
        simp [Navigator.context, NavigatorContext.isBad, hst, NavigatorContext.UNRESOLVED,
          NavigatorContext.FAILED]
      refine ⟨_, resolve_absolute_nohead W (.orphan c l d) _ sent habs
        (by simpa [Navigator.links] using hl) hbad, rfl, ?_, rfl, ?_⟩
      · simp [Navigator.setContext, Navigator.ancestors]
      · simp [Navigator.setContext, Navigator.ancestors]
    | child c p l d =>
      simp only [cold, Bool.and_eq_true, beq_iff_eq, Option.isNone_iff_eq_none] at hcold
      obtain ⟨⟨⟨hrel, hst⟩, hl⟩, hcp⟩ := hcold
      simp only [lookupsMatch, Bool.and_eq_true] at hmatch
      obtain ⟨hmp, hyes⟩ := hmatch
      obtain ⟨h1, h2, h3, h4, h5, h6⟩ := cold_resolve W hok p _ sent hcp hmp
      have hbad : (Navigator.child c p l d).context.isBad = false := by
        simp [Navigator.context, NavigatorContext.isBad, hst, NavigatorContext.UNRESOLVED,
          NavigatorContext.FAILED]
      refine ⟨_, resolve_relative_nohead_found W (.child c p l d) p _ sent _ hrel rfl
        (by simp [Navigator.links, hl]) (by simp [hbad]) h1 hyes, ?_, ?_, ?_, ?_⟩
      · simp only [Navigator.setContext, Navigator.setParent]
        exact congrArg Outcome.fulfilled (setResolved_getUrl W _ _ hyes).symm
      · simp only [Navigator.setContext, Navigator.setParent, Navigator.ancestors,
          List.map_append, List.map_cons, List.map_nil]
        rw [h2]
        simp
      · simp only [Navigator.setContext, Navigator.setParent, Navigator.ancestors,
          List.map_append, List.map_cons, List.map_nil]
        rw [h5, h6]
      · intro a ha
        simp only [Navigator.setContext, Navigator.setParent, Navigator.ancestors] at ha
        rcases List.mem_append.mp ha with h | h
        · exact h4 a h
        · simp only [List.mem_singleton] at h
          subst h
          exact h3
  obtain ⟨r, hr, hout, hsent, hq, hurls⟩ := key
  obtain ⟨res, hres⟩ := hok r.sent
    ((dispatchRequest W leaf req).set "url" (JsVal.ofUrl r.nav.context.getUrl))
  rw [dispatch_resolved_ok W leaf req sent r _ res hurl hr hout hres]
  have hctx : (dispatchSucceed W r.nav
      (r.sent ++ [(dispatchRequest W leaf req).set "url" (JsVal.ofUrl r.nav.context.getUrl)])
      res).nav.context.getUrl = r.nav.context.getUrl := by
    rw [dispatchSucceed_context]
    rfl
  have hlen : r.nav.ancestors.length = leaf.depth := by
    have := congrArg List.length hq
    simpa [ancestors_length] using this
  rw [hctx, dispatchSucceed_ancestors]
  refine ⟨⟨res, rfl⟩, ?_, ?_, hq, ?_⟩
  · show r.sent ++ _ = _
    rw [hsent]
  · show (r.sent ++ _).length = _
    rw [hsent]
    simp [hlen]
    omega
  · intro a ha
    exact ⟨probeRequest_method W a _, probeRequest_url W a _, hurls a ha⟩

theorem foobarTransport_ok (s : List JsObj) (q : JsObj) :
    ∃ res, (demoEnv foobarTransport).dispatch s q = .ok res := by
  simp only [demoEnv, foobarTransport, okLinks, okPlain]
  split
  · exact ⟨_, rfl⟩
  · split <;> exact ⟨_, rfl⟩

/-- The theorem above on the first example of the source, `bob.get()`: HEAD
https://foobar.com, HEAD https://foobar.com/users, GET https://foobar.com/users/bob. -/
theorem C4_witness :
    (get (demoEnv foobarTransport) (bob (demoEnv foobarTransport)) none none []).sent.map
        (fun q => (q.get "method", q.get "url"))
        = [(.str "HEAD", .str "https://foobar.com"), (.str "HEAD", .str "https://foobar.com/users"),
            (.str "GET", .str "https://foobar.com/users/bob")]
      ∧ (dispatch (demoEnv foobarTransport) (bob (demoEnv foobarTransport)) (some getRequest)
          []).sent.length = 0 + 2 + 1 :=
  ⟨by decide,
    (C4_cold_dispatch_probes_each_ancestor_once (demoEnv foobarTransport)
      (bob (demoEnv foobarTransport)) (some getRequest) [] foobarTransport_ok
      (by decide) (by decide) (by decide)).2.2.1⟩

/-! ## Failure and success continuations of dispatch -/

/-- Counterexample to C5 as stated, on a dispatch without url on a cold relative
Navigator. Over a transport that rejects every request with status 500 the
dispatch fails with status 500 (neither the pseudo-status nor 404), and the
context, Unresolved before the dispatch, is Failed after it: the failure
continuation of `resolve` (source lines 310-313) marks it, whatever the status.
Over a transport that answers the probe of the root and rejects the request
itself with status 500, the context, Unresolved before, is Resolved after: not
Failed, but not the same as before either. -/
theorem C5_counterexample :
    (dispatch (demoEnv alwaysFail500) (aChain (demoEnv alwaysFail500)) (some getRequest) []).outcome
        = .rejected (.response { status := 500, reason := "failed", link := none })
      ∧ (500 : Nat) ≠ (demoEnv alwaysFail500).LINK_NOT_FOUND ∧ (500 : Nat) ≠ 404
      ∧ (aChain (demoEnv alwaysFail500)).context.resolveState = NavigatorContext.UNRESOLVED
      ∧ (dispatch (demoEnv alwaysFail500) (aChain (demoEnv alwaysFail500)) (some getRequest)
          []).nav.context.resolveState = NavigatorContext.FAILED
      ∧ (dispatch (demoEnv failLeaf500) (aChain (demoEnv failLeaf500)) (some getRequest) []).outcome
        = .rejected (.response { status := 500, reason := "failed", link := none })
      ∧ (aChain (demoEnv failLeaf500)).context.resolveState = NavigatorContext.UNRESOLVED
      ∧ (dispatch (demoEnv failLeaf500) (aChain (demoEnv failLeaf500)) (some getRequest)
          []).nav.context.resolveState = NavigatorContext.RESOLVED := by
  decide

theorem links_setContext (n : Navigator) (c : NavigatorContext) : (n.setContext c).links = n.links := by
  cases n <;> rfl

theorem links_setParent (n p : Navigator) : (n.setParent p).links = n.links := by
  cases n <;> rfl

theorem links_setLinks (n : Navigator) (l : Option (List Link)) : (n.setLinks l).links = l := by
  cases n <;> rfl

theorem context_setContext (n : Navigator) (c : NavigatorContext) : (n.setContext c).context = c := by
  cases n <;> rfl

theorem context_setLinks (n : Navigator) (l : Option (List Link)) :
    (n.setLinks l).context = n.context := by
  cases n <;> rfl

/-- With `nohead` set, `resolve` leaves the link cache of its Navigator alone. -/
theorem resolve_nohead_links (W : Env) (self : Navigator) (retry : Bool) (sent : List JsObj) :
    (resolve W self { retry := retry, nohead := true } sent).nav.links = self.links := by
  rw [resolve_eq]
  unfold resolveBody
  simp only []
  split
  · rfl
  · split
    · split
      · split
        · simp [links_setContext]
        · split
          · simp [links_setContext, links_setParent]
          · simp [resolveFail, links_setContext, links_setParent]
          · split
            · simp [links_setContext, links_setParent]
            · simp [resolveFail, links_setContext, links_setParent]
      · simp [links_setContext]
    · rfl

/-- The link cache is the same when the request of a dispatch is sent as it was
before the dispatch. -/
theorem dispatchTarget_links (W : Env) (self : Navigator) (r : JsObj) (sent : List JsObj) :
    (dispatchTarget (resolve W) self r sent).nav.links = self.links := by
  unfold dispatchTarget
  split
  · rfl
  · simp only []
    split <;> exact resolve_nohead_links W self _ sent

/-- A dispatch that fulfills went through the success continuation. -/
theorem dispatch_fulfilled (W : Env) (self : Navigator) (req : Option JsObj) (sent : List JsObj)
    (res : Response) (h : (dispatch W self req sent).outcome = .fulfilled res) :
    ∃ s, dispatch W self req sent
      = dispatchSucceed W (dispatchTarget (resolve W) self (dispatchRequest W self req) sent).nav
          s res := by
  simp only [dispatch, dispatchBody] at h ⊢
  cases hto : (dispatchTarget (resolve W) self (dispatchRequest W self req) sent).outcome with
  | threw m =>
    rw [hto] at h
    simp at h
  | rejected e =>
    rw [hto] at h
    simp only [] at h
    cases e <;> simp [dispatchFail] at h
    split at h <;> simp at h
  | fulfilled url =>
    rw [hto] at h
    simp only [] at h ⊢
    cases hr : W.dispatch (dispatchTarget (resolve W) self (dispatchRequest W self req) sent).sent
        ((dispatchRequest W self req).set "url" url) with
    | ok res2 =>
      rw [hr] at h
      simp only [dispatchSucceed, Outcome.fulfilled.injEq] at h
      subst h
      exact ⟨_, rfl⟩
    | fail res2 =>
      rw [hr] at h
      simp only [dispatchFail] at h
      split at h <;> simp at h

/-- Counterexample to C6 as stated: a Navigator that cached the link `a -> /a`
dispatches a request that succeeds with a response without link header; its
link cache afterwards is still that link list, not the empty list. -/
theorem C6_counterexample :
    (dispatch (demoEnv alwaysOk) (linkedRoot (demoEnv alwaysOk)) (some explicitRequest) []).outcome
        = .fulfilled { status := 204, reason := "no content", link := none }
      ∧ (dispatch (demoEnv alwaysOk) (linkedRoot (demoEnv alwaysOk)) (some explicitRequest)
          []).nav.links = some [{ rel := "a", href := "/a", attrs := [] }]
      ∧ (dispatch (demoEnv alwaysOk) (linkedRoot (demoEnv alwaysOk)) (some explicitRequest)
          []).nav.links ≠ some [] := by
  decide

/-- C6 (amended): after a successful dispatch whose response carries no link
header, the link cache of the Navigator is not null: it is the list it held
before the dispatch when it held one, and the empty list when it was null. A
following resolve({nohead:true}) then hands no request to the transport and
fulfills with the address of the context. -/
theorem C6_success_without_links_keeps_or_empties_cache (W : Env) (self : Navigator)
    (req : Option JsObj) (sent : List JsObj) (res : Response)
    (hok : (dispatch W self req sent).outcome = .fulfilled res) (hnl : res.link = none) :
    (dispatch W self req sent).nav.links
        = some (match self.links with
          | some l => l
          | none => [])
      ∧ (dispatch W self req sent).nav.links ≠ none
      ∧ (resolve W (dispatch W self req sent).nav { retry := false, nohead := true }
          (dispatch W self req sent).sent).sent = (dispatch W self req sent).sent
      ∧ (resolve W (dispatch W self req sent).nav { retry := false, nohead := true }
          (dispatch W self req sent).sent).outcome
        = .fulfilled (dispatch W self req sent).nav.context.getUrl := by
  obtain ⟨s, hs⟩ := dispatch_fulfilled W self req sent res hok
  have hlinks : (dispatch W self req sent).nav.links
      = some (match self.links with
        | some l => l
        | none => []) := by
    rw [hs, dispatchSucceed_nav, links_setLinks, dispatchTarget_links]
    cases hl : self.links <;> simp [linksAfter, hnl]
  have hres : (dispatch W self req sent).nav.context.isResolved = true := by
    rw [hs, dispatchSucceed_context]
    rfl
  have hne : (dispatch W self req sent).nav.links ≠ none := by
    rw [hlinks]
    simp
  refine ⟨hlinks, hne, ?_, ?_⟩
  · rw [resolve_warm W _ _ _ hres hne]
  · rw [resolve_warm W _ _ _ hres hne]

/-- The theorem above on a fresh root: the cache, null before, is the empty list. -/
theorem C6_witness :
    (dispatch (demoEnv alwaysOk) (rootNavigator (demoEnv alwaysOk) "https://foobar.com")
        (some getRequest) []).nav.links = some []
      ∧ (resolve (demoEnv alwaysOk)
          (dispatch (demoEnv alwaysOk) (rootNavigator (demoEnv alwaysOk) "https://foobar.com")
            (some getRequest) []).nav { retry := false, nohead := true }
          (dispatch (demoEnv alwaysOk) (rootNavigator (demoEnv alwaysOk) "https://foobar.com")
            (some getRequest) []).sent).sent
        = (dispatch (demoEnv alwaysOk) (rootNavigator (demoEnv alwaysOk) "https://foobar.com")
            (some getRequest) []).sent :=
  have h := C6_success_without_links_keeps_or_empties_cache (demoEnv alwaysOk)
    (rootNavigator (demoEnv alwaysOk) "https://foobar.com") (some getRequest) []
    { status := 204, reason := "no content", link := none } (by decide) rfl
  ⟨h.1, h.2.2.1⟩

/-! ## A query that matches no link -/

/-- Counterexample to C7 as stated, on two Navigators relative to a root whose
resolution succeeds and whose links hold no match for the query (lookupLink
returns null). The first is Resolved with a link cache: resolve takes the
memoized branch, fulfills with `/a` and leaves the context Resolved. The second
is Failed and resolved without retry: resolve rejects with the stored 404
response, whose status is not the pseudo-status. -/
theorem C7_counterexample :
    (warmChild (demoEnv alwaysOk)).context.isRelative = true
      ∧ (warmChild (demoEnv alwaysOk)).parentNavigator = some (demoRoot (demoEnv alwaysOk))
      ∧ (failedChild (demoEnv alwaysOk)).context.isRelative = true
      ∧ (failedChild (demoEnv alwaysOk)).parentNavigator = some (demoRoot (demoEnv alwaysOk))
      ∧ (resolve (demoEnv alwaysOk) (demoRoot (demoEnv alwaysOk))
          { retry := false, nohead := false } []).outcome = .fulfilled (some "https://foobar.com")
      ∧ lookupLink (demoEnv alwaysOk)
          (resolve (demoEnv alwaysOk) (demoRoot (demoEnv alwaysOk))
            { retry := false, nohead := false } []).nav
          (warmChild (demoEnv alwaysOk)).context = none
      ∧ lookupLink (demoEnv alwaysOk)
          (resolve (demoEnv alwaysOk) (demoRoot (demoEnv alwaysOk))
            { retry := false, nohead := false } []).nav
          (failedChild (demoEnv alwaysOk)).context = none
      ∧ (resolve (demoEnv alwaysOk) (warmChild (demoEnv alwaysOk))
          { retry := false, nohead := false } []).outcome = .fulfilled (some "/a")
      ∧ (resolve (demoEnv alwaysOk) (warmChild (demoEnv alwaysOk))
          { retry := false, nohead := false } []).nav.context.isBad = false
      ∧ (resolve (demoEnv alwaysOk) (failedChild (demoEnv alwaysOk))
          { retry := false, nohead := false } []).outcome
        = .rejected (.response { status := 404, reason := "not found", link := none })
      ∧ (404 : Nat) ≠ (demoEnv alwaysOk).LINK_NOT_FOUND := by
  decide

/-- C7 (amended): a relative Navigator goes through resolution (it is not
memoized: its link cache is null or its context is not Resolved; and it is not
Failed unless retry is set), its parent resolves with success, and its query
matches no link of the parent (lookupLink returns null, or an empty address).
Then resolve rejects with a response whose status is the
LINK_NOT_FOUND pseudo-status, the context is Failed with that response as its
stored error, and no request is handed to the transport beyond those of the
resolution of the parent: none is sent for the Navigator itself. -/
theorem C7_unmatched_query_rejects_with_link_not_found (W : Env) (self p : Navigator)
    (options : ResolveOptions) (sent : List JsObj) (v : Option String)
    (hrel : self.context.isRelative = true) (hp : self.parentNavigator = some p)
    (hcold : self.links = none ∨ self.context.isResolved = false)
    (hgo : self.context.isBad = false ∨ options.retry = true)
    (hup : (resolve W p { retry := options.retry, nohead := false } sent).outcome = .fulfilled v)
    (hno : urlTruthy (lookupLink W (resolve W p { retry := options.retry, nohead := false } sent).nav
      self.context.resetResolvedState) = false) :
    (resolve W self options sent).outcome = .rejected (.response (linkNotFound W))
      ∧ (linkNotFound W).status = W.LINK_NOT_FOUND
      ∧ (resolve W self options sent).nav.context.isBad = true
      ∧ (resolve W self options sent).nav.context.getError = .response (linkNotFound W)
      ∧ (resolve W self options sent).sent
        = (resolve W p { retry := options.retry, nohead := false } sent).sent := by
  have habs : self.context.isAbsolute = false := by
    simpa [NavigatorContext.isRelative, NavigatorContext.isAbsolute] using hrel
  have hslow : (self.links != none && (self.context.isResolved
      || (self.context.isAbsolute && self.context.isBad == false))) = false := by
    rcases hcold with h | h <;> simp [h, habs]
  have hgo2 : (self.context.isBad == false || (self.context.isBad && options.retry)) = true := by
    rcases hgo with h | h
    · simp [h]
    · cases hb : self.context.isBad <;> simp [h]
  rw [resolve_relative_notfound W self p options sent v hrel hp hslow hgo2 hup hno]
  simp [resolveFail, context_setContext, NavigatorContext.setFailed, NavigatorContext.isBad,
    NavigatorContext.getError, linkNotFound]

/-- The theorem above on the chain `root.follow({rel:'a'})` when the root answers
without links. -/
theorem C7_witness :
    (resolve (demoEnv alwaysOk) (aChain (demoEnv alwaysOk)) { retry := false, nohead := false }
        []).outcome
        = .rejected (.response { status := 1, reason := "link query failed to match", link := none })
      ∧ (resolve (demoEnv alwaysOk) (aChain (demoEnv alwaysOk)) { retry := false, nohead := false }
        []).nav.context.isBad = true
      ∧ (resolve (demoEnv alwaysOk) (aChain (demoEnv alwaysOk)) { retry := false, nohead := false }
        []).sent = [probe "https://foobar.com"] :=
  have h := C7_unmatched_query_rejects_with_link_not_found (demoEnv alwaysOk)
    (aChain (demoEnv alwaysOk)) (rootNavigator (demoEnv alwaysOk) "https://foobar.com")
    { retry := false, nohead := false } [] (some "https://foobar.com")
    (by decide) (by decide) (Or.inl (by decide)) (Or.inl (by decide)) (by decide) (by decide)
  ⟨h.1, h.2.2.1, h.2.2.2.2⟩

/-! ## copyDefaults -/

theorem hasProp_setProp_same (o : Attrs) (k : String) (v : JsVal) :
    hasProp (setProp o k v) k = true := by
  induction o with
  | nil => simp [setProp, hasProp, List.lookup]
  | cons p rest ih =>
    obtain ⟨k1, v1⟩ := p
    by_cases h : k1 = k
    · subst h
      simp [setProp, hasProp, List.lookup]
    · have h2 : (k == k1) = false := by simpa using fun e => h e.symm
      simp only [setProp, beq_iff_eq, h, if_false]
      simp only [hasProp, List.lookup, h2] at ih ⊢
      exact ih

theorem hasProp_setProp_mono (o : Attrs) (k k2 : String) (v : JsVal) (h : hasProp o k = true) :
    hasProp (setProp o k2 v) k = true := by
  by_cases e : k = k2
  · subst e
    exact hasProp_setProp_same o k v
  · have h1 := getProp_setProp_ne o k k2 v e
    simp only [hasProp, getProp] at h h1 ⊢
    cases hl : List.lookup k (setProp o k2 v) with
    | some x => rfl
    | none =>
      rw [hl] at h1
      cases ho : List.lookup k o with
      | none => simp [ho] at h
      | some y =>
        exfalso
        rw [ho] at h1
        simp only at h1
        have hk : (y = .undefined) := h1.symm
        subst hk
        -- the value `undefined` is stored under `k` in `o`, so `k` is a key of the update too
        clear h1 h
        induction o with
        | nil => simp [List.lookup] at ho
        | cons p rest ih =>
          obtain ⟨k1, v1⟩ := p
          by_cases h3 : k1 = k2
          · subst h3
            have h4 : (k == k1) = false := by simpa using e
            simp only [setProp, beq_self_eq_true, if_true, List.lookup, h4] at hl ho
            rw [ho] at hl
            simp at hl
          · simp only [setProp, beq_iff_eq, h3, if_false] at hl
            by_cases h5 : k = k1
            · subst h5
              simp [List.lookup] at hl
            · have h6 : (k == k1) = false := by simpa using h5
              simp only [List.lookup, h6] at hl ho
              exact ih hl ho

theorem hasProp_of_truthy (o : Attrs) (k : String) (h : (getProp o k).truthy = true) :
    hasProp o k = true := by
  simp only [getProp, hasProp] at h ⊢
  cases hl : List.lookup k o with
  | none => simp [hl, JsVal.truthy] at h
  | some v => rfl

/-- The loop of `copyDefaults` never removes a property. -/
theorem copyAttrs_hasProp_mono (W : Env) (defaults : Attrs) (ks : List String) (target : Attrs)
    (k : String) (h : hasProp target k = true) :
    hasProp (copyAttrs W defaults ks target) k = true := by
  induction ks generalizing target with
  | nil => simpa [copyAttrs] using h
  | cons k0 ks ih =>
    simp only [copyAttrs]
    split
    · exact ih target h
    · split
      · exact ih _ (hasProp_setProp_mono _ _ _ _ h)
      · exact ih _ (hasProp_setProp_mono _ _ _ _ h)

/-- After the loop of `copyDefaults`, every key of the loop other than `headers`
is a property of the target. -/
theorem copyAttrs_hasProp_key (W : Env) (defaults : Attrs) (ks : List String) (target : Attrs)
    (k : String) (hk : k ∈ ks) (hne : k ≠ "headers") :
    hasProp (copyAttrs W defaults ks target) k = true := by
  induction ks generalizing target with
  | nil => simp at hk
  | cons k0 ks ih =>
    simp only [copyAttrs]
    rcases List.mem_cons.mp hk with e | hmem
    · subst e
      split
      · rename_i hc
        simp only [beq_iff_eq, hne, false_or, Bool.or_eq_true] at hc
        exact copyAttrs_hasProp_mono W defaults ks target k (hasProp_of_truthy _ _ hc)
      · split
        · exact copyAttrs_hasProp_mono W defaults ks _ k (hasProp_setProp_same _ _ _)
        · exact copyAttrs_hasProp_mono W defaults ks _ k (hasProp_setProp_same _ _ _)
    · split
      · exact ih target hmem
      · split
        · exact ih _ hmem
        · exact ih _ hmem

theorem mem_keys_of_hasProp (o : Attrs) (k : String) (h : hasProp o k = true) :
    k ∈ o.map Prod.fst := by
  induction o with
  | nil => simp [hasProp, List.lookup] at h
  | cons p rest ih =>
    obtain ⟨k1, v1⟩ := p
    by_cases e : k = k1
    · subst e
      simp
    · have h2 : (k == k1) = false := by simpa using e
      simp only [hasProp, List.lookup, h2] at h ih
      simp only [List.map_cons, List.mem_cons]
      exact Or.inr (ih h)

theorem copyDefaults_attrs (W : Env) (target defaults : JsObj) :
    (copyDefaults W target defaults).attrs
      = copyAttrs W defaults.attrs (defaults.attrs.map Prod.fst) target.attrs := by
  cases defaults <;> cases target <;> rfl

/-- Every property of the defaults other than `headers` is a property of the
target after `copyDefaults`. -/
theorem copyDefaults_hasProp_key (W : Env) (target defaults : JsObj) (k : String)
    (hne : k ≠ "headers") (h : hasProp defaults.attrs k = true) :
    hasProp (copyDefaults W target defaults).attrs k = true := by
  rw [copyDefaults_attrs]
  exact copyAttrs_hasProp_key W _ _ _ k (mem_keys_of_hasProp _ _ h) hne

/-- Every property of the target is still one after `copyDefaults`. -/
theorem copyDefaults_hasProp_mono (W : Env) (target defaults : JsObj) (k : String)
    (h : hasProp target.attrs k = true) :
    hasProp (copyDefaults W target defaults).attrs k = true := by
  rw [copyDefaults_attrs]
  exact copyAttrs_hasProp_mono W _ _ _ k h

/-- The headers of the target after `copyDefaults` with defaults that have
headers: the headers of the target (or an empty object) merged the same way. -/
theorem copyDefaults_headers_nested (W : Env) (target : JsObj) (da : Attrs) (dh : JsObj) :
    (copyDefaults W target (.nested da dh)).headers
      = some (copyDefaults W (match target.headers with
          | some th => th
          | none => .flat []) dh) := by
  cases target <;> rfl

theorem copyDefaults_headers_flat (W : Env) (target : JsObj) (da : Attrs) :
    (copyDefaults W target (.flat da)).headers = target.headers := by
  cases target <;> rfl

/-- Counterexample to C8 as stated: the target defines `timeout` with the value
0, the defaults hold `timeout: 30`; after the merge the target holds 30. -/
theorem C8_counterexample :
    hasProp zeroTimeoutRequest.attrs "timeout" = true
      ∧ zeroTimeoutRequest.get "timeout" = .num 0
      ∧ (copyDefaults (demoEnv alwaysOk) zeroTimeoutRequest timeoutDefaults).get "timeout"
        = .num 30 := by
  decide

/-- C8 (amended): copyDefaults(target, defaults) copies a default onto the target
only for keys whose value on the target is not truthy (absent, or falsy such as
0, '', false, null). Every top-level key other than `headers`, and every header
name, whose value on the target is truthy before the merge has the same value
after the merge (`get` reads the properties other than `headers`). -/
theorem C8_truthy_keys_keep_their_value (W : Env) (target defaults : JsObj) (k : String) :
    ((target.get k).truthy = true → (copyDefaults W target defaults).get k = target.get k)
      ∧ (∀ th, target.headers = some th → (th.get k).truthy = true →
          ∃ rh, (copyDefaults W target defaults).headers = some rh ∧ rh.get k = th.get k) := by
  refine ⟨copyDefaults_truthy W target defaults k, ?_⟩
  intro th hth htr
  cases defaults with
  | flat da =>
    exact ⟨th, by rw [copyDefaults_headers_flat, hth], rfl⟩
  | nested da dh =>
    refine ⟨_, copyDefaults_headers_nested W target da dh, ?_⟩
    rw [hth]
    exact copyDefaults_truthy W th dh k htr

/-- The theorem above on the request `{ headers: { authorization: 'x' } }` and
the defaults `{ headers: { accept: 'json' }, method: 'GET' }`. -/
theorem C8_witness :
    ∃ rh, (copyDefaults (demoEnv alwaysOk) authRequest acceptDefaults).headers = some rh
      ∧ rh.get "authorization" = .str "x" :=
  (C8_truthy_keys_keep_their_value (demoEnv alwaysOk) authRequest acceptDefaults
    "authorization").2 (.flat [("authorization", .str "x")]) rfl (by decide)

theorem requestDefaults_setContext (n : Navigator) (c : NavigatorContext) :
    (n.setContext c).requestDefaults = n.requestDefaults := by
  cases n <;> rfl

theorem requestDefaults_setParent (n p : Navigator) :
    (n.setParent p).requestDefaults = n.requestDefaults := by
  cases n <;> rfl

theorem requestDefaults_setLinks (n : Navigator) (l : Option (List Link)) :
    (n.setLinks l).requestDefaults = n.requestDefaults := by
  cases n <;> rfl

/-- With `nohead` set, `resolve` leaves the request defaults of its Navigator alone. -/
theorem resolve_nohead_requestDefaults (W : Env) (self : Navigator) (retry : Bool)
    (sent : List JsObj) :
    (resolve W self { retry := retry, nohead := true } sent).nav.requestDefaults
      = self.requestDefaults := by
  rw [resolve_eq]
  unfold resolveBody
  simp only []
  split
  · rfl
  · split
    · split
      · split
        · simp [requestDefaults_setContext]
        · split
          · simp [requestDefaults_setContext, requestDefaults_setParent]
          · simp [resolveFail, requestDefaults_setContext, requestDefaults_setParent]
          · split
            · simp [requestDefaults_setContext, requestDefaults_setParent]
            · simp [resolveFail, requestDefaults_setContext, requestDefaults_setParent]
      · simp [requestDefaults_setContext]
    · rfl

theorem dispatchTarget_requestDefaults (W : Env) (self : Navigator) (r : JsObj)
    (sent : List JsObj) :
    (dispatchTarget (resolve W) self r sent).nav.requestDefaults = self.requestDefaults := by
  unfold dispatchTarget
  split
  · rfl
  · simp only []
    split <;> exact resolve_nohead_requestDefaults W self _ sent

theorem dispatchFail_requestDefaults (W : Env) (n : Navigator) (s : List JsObj) (e : JsError) :
    (dispatchFail W n s e).nav.requestDefaults = n.requestDefaults := by
  unfold dispatchFail
  split
  · split
    · simp [requestDefaults_setContext]
    · rfl
  · rfl
  · rfl

/-- A dispatch leaves the request defaults stored on its Navigator as they were. -/
theorem dispatch_requestDefaults (W : Env) (self : Navigator) (req : Option JsObj)
    (sent : List JsObj) :
    (dispatch W self req sent).nav.requestDefaults = self.requestDefaults := by
  simp only [dispatch, dispatchBody]
  split
  · exact dispatchTarget_requestDefaults W self _ sent
  · rw [dispatchFail_requestDefaults]
    exact dispatchTarget_requestDefaults W self _ sent
  · split
    · rw [dispatchSucceed_nav, requestDefaults_setLinks, requestDefaults_setContext]
      exact dispatchTarget_requestDefaults W self _ sent
    · rw [dispatchFail_requestDefaults]
      exact dispatchTarget_requestDefaults W self _ sent

/-! ## rebase -/

/-- C10: for every Navigator, in any state, and every address string u, after
rebase(u) the context is absolute, Unresolved, without error, with getUrl() = u
and query = u; the link cache is null and the parent reference is unchanged. -/
theorem C10_rebase_resets_to_absolute_unresolved (W : Env) (self : Navigator) (u : String) :
    (rebase W self u).context.isAbsolute = true
      ∧ (rebase W self u).context.resolveState = NavigatorContext.UNRESOLVED
      ∧ (rebase W self u).context.getError = .null
      ∧ (rebase W self u).context.getUrl = some u
      ∧ (rebase W self u).context.query = .uri u
      ∧ (rebase W self u).links = none
      ∧ (rebase W self u).parentNavigator = self.parentNavigator := by
  cases self <;>
    simp [rebase, unresolve, Navigator.setContext, Navigator.setLinks, Navigator.context,
      Navigator.links, Navigator.parentNavigator, NavigatorContext.resetResolvedState,
      NavigatorContext.isAbsolute, NavigatorContext.getError, NavigatorContext.getUrl]

/-! ## Retry after a failure -/

theorem probeRequest_setContext (W : Env) (n : Navigator) (c : NavigatorContext)
    (u : Option String) : probeRequest W (n.setContext c) u = probeRequest W n u := by
  cases n <;> rfl

theorem setContext_setContext (n : Navigator) (c1 c2 : NavigatorContext) :
    (n.setContext c1).setContext c2 = n.setContext c2 := by
  cases n <;> rfl

/-- An absolute Navigator that goes through resolution without `nohead` and
whose probe succeeds, whatever its link cache and whether or not it had failed. -/
theorem resolve_absolute_probe_ok (W : Env) (self : Navigator) (retry : Bool) (sent : List JsObj)
    (res : Response)
    (habs : self.context.isAbsolute = true)
    (hslow : (self.links != none && (self.context.isResolved
      || (self.context.isAbsolute && self.context.isBad == false))) = false)
    (hgo : (self.context.isBad == false || (self.context.isBad && retry)) = true)
    (hu : urlTruthy self.context.getUrl = true)
    (hok : W.dispatch sent (probeRequest W self self.context.getUrl) = .ok res) :
    resolve W self { retry := retry, nohead := false } sent
      = { nav := (self.setContext (self.context.resetResolvedState.setResolved W none)).setLinks
            (linksAfter self.links res),
          sent := sent ++ [probeRequest W self self.context.getUrl],
          outcome := .fulfilled self.context.getUrl } := by
  rw [resolve_eq]
  have h1 : (self.setContext self.context.resetResolvedState).context.isRelative = false := by
    rw [context_setContext]
    simpa [NavigatorContext.isRelative, NavigatorContext.resetResolvedState,
      NavigatorContext.isAbsolute] using habs
  have h2 : (self.setContext self.context.resetResolvedState).context.getUrl
      = self.context.getUrl := by
    rw [context_setContext]
    rfl
  simp only [resolveBody, hslow, hgo, h1, h2]
  simp only [Bool.false_eq_true, if_false, if_true]
  rw [dispatch_probe W _ _ sent hu, probeRequest_setContext, hok]
  simp only [dispatchSucceed_nav, context_setContext, links_setContext, setContext_setContext,
    context_setLinks]
  simp only [dispatchSucceed]
  rfl

/-- C11: for a Navigator whose context is Failed, resolve({retry:true}) does not
reject with the stored error without trying. It resets the context to
Unresolved and resolves again: for a relative Navigator, or one without link
cache, the call runs exactly as on the same Navigator with an Unresolved
context. For an absolute context (with or without link cache) whose HEAD probe
now succeeds, the call sends that probe, fulfills with the address of the
context and leaves the context Resolved with its error cleared. -/
theorem C11_retry_resolves_again (W : Env) (self : Navigator) (sent : List JsObj)
    (hbad : self.context.isBad = true) :
    (∀ nohead, self.context.isRelative = true ∨ self.links = none →
        resolve W self { retry := true, nohead := nohead } sent
          = resolve W (self.setContext self.context.resetResolvedState)
              { retry := true, nohead := nohead } sent)
      ∧ (∀ res, self.context.isAbsolute = true → urlTruthy self.context.getUrl = true →
          W.dispatch sent (probeRequest W self self.context.getUrl) = .ok res →
          (resolve W self { retry := true, nohead := false } sent).sent
              = sent ++ [probeRequest W self self.context.getUrl]
            ∧ (resolve W self { retry := true, nohead := false } sent).outcome
              = .fulfilled self.context.getUrl
            ∧ (resolve W self { retry := true, nohead := false } sent).nav.context.isResolved = true
            ∧ (resolve W self { retry := true, nohead := false } sent).nav.context.getError = .null
            ∧ (resolve W self { retry := true, nohead := false } sent).nav.context.getUrl
              = self.context.getUrl) := by
  have hres := isResolved_of_isBad hbad
  constructor
  · intro nohead hcase
    have hr1 : (self.context.resetResolvedState).isBad = false := rfl
    have hr2 : (self.context.resetResolvedState).isResolved = false := rfl
    have hr3 : (self.context.resetResolvedState).isAbsolute = self.context.isAbsolute := rfl
    have hr4 : (self.context.resetResolvedState).resetResolvedState
        = self.context.resetResolvedState := rfl
    rw [resolve_eq, resolve_eq W (self.setContext self.context.resetResolvedState)]
    unfold resolveBody
    rcases hcase with h | h
    · have ha : self.context.isAbsolute = false := by
        simpa [NavigatorContext.isRelative, NavigatorContext.isAbsolute] using h
      simp [hbad, hres, context_setContext, links_setContext, hr1, hr2, hr3, hr4,
        setContext_setContext, ha]
    · simp [hbad, hres, context_setContext, links_setContext, hr1, hr2, hr3, hr4,
        setContext_setContext, h]
  · intro res habs hu hok
    rw [resolve_absolute_probe_ok W self true sent res habs (by simp [hbad, hres])
      (by simp [hbad]) hu hok]
    simp only [context_setLinks, context_setContext]
    simp [NavigatorContext.setResolved, NavigatorContext.resetResolvedState,
      NavigatorContext.isResolved, NavigatorContext.getError, NavigatorContext.getUrl]

/-- The theorem above on an absolute root that failed with a 404 response, over
a transport that now answers with success. -/
theorem C11_witness :
    (failedRoot (demoEnv alwaysOk)).context.isBad = true
      ∧ (resolve (demoEnv alwaysOk) (failedRoot (demoEnv alwaysOk))
          { retry := true, nohead := false } []).sent = [probe "https://foobar.com"]
      ∧ (resolve (demoEnv alwaysOk) (failedRoot (demoEnv alwaysOk))
          { retry := true, nohead := false } []).outcome = .fulfilled (some "https://foobar.com")
      ∧ (resolve (demoEnv alwaysOk) (failedRoot (demoEnv alwaysOk))
          { retry := true, nohead := false } []).nav.context.isResolved = true :=
  have h := (C11_retry_resolves_again (demoEnv alwaysOk) (failedRoot (demoEnv alwaysOk)) []
    (by decide)).2 { status := 204, reason := "no content", link := none }
    (by decide) (by decide) (by decide)
  ⟨by decide, h.1, h.2.1, h.2.2.1⟩

/-! ## Construction and the invariants of a context -/

/-- C12: a context built from a relation query object, from a string that is
not an absolute URI, or from an absent query is relative. Constructing a
Navigator from a relative context without parent throws the usage error;
constructing it with a parent, or from an absolute context without parent,
does not throw. -/
theorem C12_relative_context_requires_parent (W : Env) (p : Navigator) :
    (∀ q, (NavigatorContext.new W (.rel q)).isRelative = true)
      ∧ (NavigatorContext.new W .absent).isRelative = true
      ∧ (∀ s, W.isAbsUri s = false → (NavigatorContext.new W (.uri s)).isRelative = true)
      ∧ (∀ c : NavigatorContext, c.isRelative = true →
          Navigator.new c none
            = .error "A parentNavigator is required for navigators with relative contexts")
      ∧ (∀ c : NavigatorContext, Navigator.new c (some p) = .ok (.child c p none none))
      ∧ (∀ c : NavigatorContext, c.isRelative = false →
          Navigator.new c none = .ok (.orphan c none none)) := by
  refine ⟨fun q => rfl, rfl, ?_, ?_, fun c => rfl, ?_⟩
  · intro s hs
    simp [NavigatorContext.new, hs, NavigatorContext.isRelative]
  · intro c hc
    simp [Navigator.new, hc]
  · intro c hc
    simp [Navigator.new, hc]

/-- The theorem above on the query `{ rel: 'a' }` and on the relative URI `users`. -/
theorem C12_witness :
    Navigator.new (NavigatorContext.new (demoEnv alwaysOk) (.rel [("rel", "a")])) none
        = .error "A parentNavigator is required for navigators with relative contexts"
      ∧ Navigator.new (NavigatorContext.new (demoEnv alwaysOk) (.uri "users")) none
        = .error "A parentNavigator is required for navigators with relative contexts" :=
  have h := C12_relative_context_requires_parent (demoEnv alwaysOk)
    (rootNavigator (demoEnv alwaysOk) "https://foobar.com")
  ⟨h.2.2.2.1 _ (h.1 [("rel", "a")]), h.2.2.2.1 _ (h.2.2.1 "users" (by decide))⟩

/-- C13: a context built from a syntactically absolute address string is
absolute and has that string as its address right after construction, and
resetResolvedState, setResolved (with or without an address), setFailed,
unresolve and rebase preserve the invariant that an absolute context has a
non-null address. -/
theorem C13_absolute_context_has_address (W : Env) :
    (∀ s, W.isAbsUri s = true →
        (NavigatorContext.new W (.uri s)).isAbsolute = true
          ∧ (NavigatorContext.new W (.uri s)).getUrl = some s)
      ∧ (∀ q, absoluteHasUrl (NavigatorContext.new W q))
      ∧ (∀ c, absoluteHasUrl c → absoluteHasUrl c.resetResolvedState)
      ∧ (∀ c u, absoluteHasUrl c → absoluteHasUrl (c.setResolved W u))
      ∧ (∀ c e, absoluteHasUrl c → absoluteHasUrl (c.setFailed e))
      ∧ (∀ nav, absoluteHasUrl nav.context → absoluteHasUrl (unresolve nav).context)
      ∧ (∀ nav u, absoluteHasUrl (rebase W nav u).context) := by
  refine ⟨?_, ?_, fun c h => h, ?_, fun c e h => h, ?_, ?_⟩
  · intro s hs
    simp [NavigatorContext.new, hs, NavigatorContext.isAbsolute, NavigatorContext.getUrl]
  · intro q
    cases q with
    | absent => simp [absoluteHasUrl, NavigatorContext.new, NavigatorContext.isAbsolute]
    | rel q => simp [absoluteHasUrl, NavigatorContext.new, NavigatorContext.isAbsolute]
    | uri s =>
      by_cases hs : W.isAbsUri s = true
      · simp [absoluteHasUrl, NavigatorContext.new, hs, NavigatorContext.getUrl]
      · simp [absoluteHasUrl, NavigatorContext.new, hs, NavigatorContext.isAbsolute]
  · intro c u h
    cases u with
    | none => exact h
    | some s =>
      simp only [NavigatorContext.setResolved]
      split
      · intro _
        simp [NavigatorContext.getUrl]
      · exact h
  · intro nav h
    cases nav <;> exact h
  · intro nav u
    cases nav <;> simp [absoluteHasUrl, rebase, unresolve, Navigator.setContext,
      Navigator.setLinks, Navigator.context, NavigatorContext.getUrl]

/-- The theorem above on the address `https://foobar.com`. -/
theorem C13_witness :
    (NavigatorContext.new (demoEnv alwaysOk) (.uri "https://foobar.com")).isAbsolute = true
      ∧ (NavigatorContext.new (demoEnv alwaysOk) (.uri "https://foobar.com")).getUrl
        = some "https://foobar.com" :=
  (C13_absolute_context_has_address (demoEnv alwaysOk)).1 "https://foobar.com" (by decide)

/-- C19: every context operation leaves a context on which a non-null stored
error implies the Failed state: construction, resetResolvedState, setResolved,
setFailed, and the Navigator operations unresolve and rebase. The error is null
after construction and after every transition to Resolved or Unresolved. -/
theorem C19_error_only_when_failed (W : Env) (q : Query) (c : NavigatorContext)
    (u : Option String) (e : JsError) (nav : Navigator) (url : String) :
    errorOnlyWhenFailed (NavigatorContext.new W q)
      ∧ (NavigatorContext.new W q).getError = .null
      ∧ errorOnlyWhenFailed c.resetResolvedState
      ∧ c.resetResolvedState.getError = .null
      ∧ errorOnlyWhenFailed (c.setResolved W u)
      ∧ (c.setResolved W u).getError = .null
      ∧ errorOnlyWhenFailed (c.setFailed e)
      ∧ errorOnlyWhenFailed (unresolve nav).context
      ∧ (unresolve nav).context.getError = .null
      ∧ errorOnlyWhenFailed (rebase W nav url).context
      ∧ (rebase W nav url).context.getError = .null := by
  have hnew : (NavigatorContext.new W q).getError = .null := by
    cases q with
    | absent => rfl
    | rel q => rfl
    | uri s =>
      simp only [NavigatorContext.new]
      split <;> rfl
  have hset : (c.setResolved W u).getError = .null := by
    cases u with
    | none => rfl
    | some s =>
      simp only [NavigatorContext.setResolved]
      split <;> rfl
  have hun : (unresolve nav).context.getError = .null := by
    cases nav <;> rfl
  have hre : (rebase W nav url).context.getError = .null := by
    cases nav <;> rfl
  refine ⟨fun h => absurd hnew h, hnew, fun h => absurd rfl h, rfl, fun h => absurd hset h, hset,
    fun _ => rfl, fun h => absurd hun h, hun, fun h => absurd hre h, hre⟩

/-! ## A successful dispatch -/

/-- C14: after every successful dispatch on a Navigator (with or without an
explicit url, whatever the state of the context before, Failed included), the
context is Resolved with error null; and when the response carries a link
header, the link cache of the Navigator is the link list of that header,
whatever was cached before. -/
theorem C14_successful_dispatch_marks_resolved (W : Env) (self : Navigator)
    (req : Option JsObj) (sent : List JsObj) (res : Response)
    (hok : (dispatch W self req sent).outcome = .fulfilled res) :
    (dispatch W self req sent).nav.context.isResolved = true
      ∧ (dispatch W self req sent).nav.context.getError = .null
      ∧ (∀ l, res.link = some l → (dispatch W self req sent).nav.links = some l) := by
  obtain ⟨s, hs⟩ := dispatch_fulfilled W self req sent res hok
  rw [hs]
  refine ⟨?_, ?_, ?_⟩
  · rw [dispatchSucceed_context]
    rfl
  · rw [dispatchSucceed_context]
    rfl
  · intro l hl
    rw [dispatchSucceed_nav, links_setLinks]
    simp [linksAfter, hl]

/-- The theorem above on a root that had failed with a 404 response and has no
link cache, for a request with an explicit url that now succeeds with links. -/
theorem C14_witness :
    (dispatch (demoEnv abTransport) (failedRoot (demoEnv abTransport)) (some rootGetRequest)
        []).nav.context.isResolved = true
      ∧ (dispatch (demoEnv abTransport) (failedRoot (demoEnv abTransport)) (some rootGetRequest)
        []).nav.context.getError = .null
      ∧ (dispatch (demoEnv abTransport) (failedRoot (demoEnv abTransport)) (some rootGetRequest)
        []).nav.links = some [{ rel := "a", href := "/a", attrs := [] }] :=
  have h := C14_successful_dispatch_marks_resolved (demoEnv abTransport)
    (failedRoot (demoEnv abTransport)) (some rootGetRequest) []
    { status := 200, reason := "ok", link := some [{ rel := "a", href := "/a", attrs := [] }] }
    (by decide)
  ⟨h.1, h.2.1, h.2.2 _ rfl⟩

/-! ## follow -/

/-- One round of `follow` on a relation query: a new Navigator with a fresh
context, the given parent, no link cache and the request defaults of `this`. -/
theorem followStep_rel (W : Env) (this nav : Navigator) (q : LinkQuery) :
    followStep W this nav (.rel q)
      = .child (NavigatorContext.new W (.rel q)) nav none this.requestDefaults := by
  unfold followStep
  cases h : this.requestDefaults <;> simp [Navigator.setRequestDefaults]

/-- On relation queries the loop of `follow` runs through the whole list. -/
theorem followLoop_rel (W : Env) (this : Navigator) (qs : List LinkQuery) (nav : Navigator) :
    followLoop W this nav (qs.map Query.rel)
      = qs.foldl (fun a q => .child (NavigatorContext.new W (.rel q)) a none this.requestDefaults)
          nav := by
  induction qs generalizing nav with
  | nil => rfl
  | cons q qs ih =>
    simp only [List.map_cons, followLoop, Query.truthy, if_true, List.foldl_cons]
    rw [followStep_rel, ih]

theorem lineage_child (c : NavigatorContext) (p : Navigator) (l : Option (List Link))
    (d : Option JsObj) :
    (Navigator.child c p l d).lineage = p.lineage ++ [Navigator.child c p l d] := rfl

/-- The chain built by one child per query on top of `nav`. -/
theorem lineage_foldl (W : Env) (d : Option JsObj) (qs : List LinkQuery) (nav : Navigator) :
    ∃ news : List Navigator,
      (qs.foldl (fun a q => .child (NavigatorContext.new W (.rel q)) a none d) nav).lineage
          = nav.lineage ++ news
        ∧ news.map (fun x => x.context) = qs.map (fun q => NavigatorContext.new W (.rel q))
        ∧ (∀ x ∈ news, x.links = none ∧ x.requestDefaults = d)
        ∧ List.Chain (fun a b => b.parentNavigator = some a) nav news
        ∧ (nav :: news).getLast?
          = some (qs.foldl (fun a q => .child (NavigatorContext.new W (.rel q)) a none d) nav) := by
  induction qs generalizing nav with
  | nil => exact ⟨[], by simp, rfl, by simp, List.Chain.nil, rfl⟩
  | cons q qs ih =>
    obtain ⟨news, h1, h2, h3, h4, h5⟩ :=
      ih (.child (NavigatorContext.new W (.rel q)) nav none d)
    refine ⟨.child (NavigatorContext.new W (.rel q)) nav none d :: news, ?_, ?_, ?_, ?_, ?_⟩
    · simp only [List.foldl_cons]
      rw [h1, lineage_child]
      simp
    · simp only [List.map_cons, h2]
      rfl
    · intro x hx
      rcases List.mem_cons.mp hx with e | e
      · subst e
        exact ⟨rfl, rfl⟩
      · exact h3 x e
    · exact List.Chain.cons rfl h4
    · simp only [List.foldl_cons]
      rw [List.getLast?_cons_cons]
      exact h5

/-- C15: for every Navigator n and every non-empty list of relation query
objects q1..qk, n.follow([q1..qk]) creates exactly k new Navigators and returns
the last. The i-th has a fresh Unresolved context with query qi and a null link
cache; the first has parent n and each later one the previous one; every new
Navigator has the request defaults of n; and n itself, as the parent of the
first, is unchanged. -/
theorem C15_follow_builds_one_navigator_per_query (W : Env) (n : Navigator)
    (qs : List LinkQuery) (hne : qs ≠ []) :
    ∃ news : List Navigator,
      (follow W n (qs.map Query.rel)).lineage = n.lineage ++ news
        ∧ news.length = qs.length
        ∧ news.getLast? = some (follow W n (qs.map Query.rel))
        ∧ news.map (fun x => x.context) = qs.map (fun q => NavigatorContext.new W (.rel q))
        ∧ (∀ x ∈ news, x.context.resolveState = NavigatorContext.UNRESOLVED
            ∧ x.context.getError = .null ∧ x.context.getUrl = none
            ∧ x.links = none ∧ x.requestDefaults = n.requestDefaults)
        ∧ news.map (fun x => x.context.query) = qs.map Query.rel
        ∧ List.Chain (fun a b => b.parentNavigator = some a) n news := by
  cases qs with
  | nil => exact absurd rfl hne
  | cons q qs =>
    have hf : follow W n ((q :: qs).map Query.rel)
        = (q :: qs).foldl
            (fun a x => .child (NavigatorContext.new W (.rel x)) a none n.requestDefaults) n := by
      simp only [List.map_cons, follow, List.foldl_cons]
      rw [followStep_rel, followLoop_rel]
    obtain ⟨news, h1, h2, h3, h4, h5⟩ := lineage_foldl W n.requestDefaults (q :: qs) n
    have hlen : news.length = (q :: qs).length := by
      have := congrArg List.length h2
      simpa using this
    have hnn : news ≠ [] := by
      intro e
      rw [e] at hlen
      simp at hlen
    have hctx : ∀ x ∈ news, ∃ y, x.context = NavigatorContext.new W (.rel y) := by
      intro x hx
      have hm : x.context ∈ news.map (fun x => x.context) := List.mem_map_of_mem _ hx
      rw [h2] at hm
      obtain ⟨y, _, hy⟩ := List.mem_map.mp hm
      exact ⟨y, hy.symm⟩
    rw [hf]
    refine ⟨news, h1, hlen, ?_, h2, ?_, ?_, h4⟩
    · cases news with
      | nil => exact absurd rfl hnn
      | cons a rest =>
        rw [List.getLast?_cons_cons] at h5
        exact h5
    · intro x hx
      obtain ⟨y, hy⟩ := hctx x hx
      rw [hy]
      exact ⟨rfl, rfl, rfl, (h3 x hx).1, (h3 x hx).2⟩
    · have := congrArg (List.map (fun c : NavigatorContext => c.query)) h2
      simpa [List.map_map, Function.comp, NavigatorContext.new] using this

/-- The theorem above on a root with request defaults and the two queries of the
first example of the source. -/
theorem C15_witness :
    ∃ news : List Navigator,
      (bobWithDefaults (demoEnv alwaysOk)).lineage
          = ((rootNavigator (demoEnv alwaysOk) "https://foobar.com").setRequestDefaults
              (some acceptDefaults)).lineage ++ news
        ∧ news.length = 2
        ∧ news.getLast? = some (bobWithDefaults (demoEnv alwaysOk)) :=
  match C15_follow_builds_one_navigator_per_query (demoEnv alwaysOk)
      ((rootNavigator (demoEnv alwaysOk) "https://foobar.com").setRequestDefaults
        (some acceptDefaults))
      [[("rel", "collection"), ("id", "users")], [("rel", "item"), ("id", "bob")]]
      (by decide) with
  | ⟨news, h1, h2, h3, _⟩ => ⟨news, h1, h2, h3⟩

/-! ## unresolve -/

theorem dispatchFail_sent (W : Env) (n : Navigator) (s : List JsObj) (e : JsError) :
    (dispatchFail W n s e).sent = s := by
  unfold dispatchFail
  split
  · split <;> rfl
  · rfl
  · rfl

/-- A probe with a truthy url reaches the transport, whatever the reply. -/
theorem dispatch_probe_sent (W : Env) (self : Navigator) (u : Option String) (sent : List JsObj)
    (hu : urlTruthy u = true) :
    (dispatch W self (some (headRequest u)) sent).sent = sent ++ [probeRequest W self u] := by
  rw [dispatch_probe W self u sent hu]
  split
  · rfl
  · exact dispatchFail_sent W _ _ _

/-- An absolute Navigator that goes through resolution without `nohead` sends a
probe to its address, whatever the reply. -/
theorem resolve_absolute_head_sent (W : Env) (self : Navigator) (retry : Bool)
    (sent : List JsObj)
    (habs : self.context.isAbsolute = true)
    (hslow : (self.links != none && (self.context.isResolved
      || (self.context.isAbsolute && self.context.isBad == false))) = false)
    (hgo : (self.context.isBad == false || (self.context.isBad && retry)) = true)
    (hu : urlTruthy self.context.getUrl = true) :
    (resolve W self { retry := retry, nohead := false } sent).sent
      = sent ++ [probeRequest W self self.context.getUrl] := by
  rw [resolve_eq]
  have h1 : (self.setContext self.context.resetResolvedState).context.isRelative = false := by
    rw [context_setContext]
    simpa [NavigatorContext.isRelative, NavigatorContext.resetResolvedState,
      NavigatorContext.isAbsolute] using habs
  have h2 : (self.setContext self.context.resetResolvedState).context.getUrl
      = self.context.getUrl := by
    rw [context_setContext]
    rfl
  have h3 := dispatch_probe_sent W (self.setContext self.context.resetResolvedState)
    self.context.getUrl sent hu
  rw [probeRequest_setContext] at h3
  simp only [resolveBody, hslow, hgo, h1, h2]
  simp only [Bool.false_eq_true, if_false, if_true]
  split <;> exact h3

/-- A relative Navigator that goes through resolution without `nohead`, whose
parent resolves and whose query finds a link, sends a probe to the address
found, whatever the reply. -/
theorem resolve_relative_head_sent (W : Env) (self p : Navigator) (retry : Bool)
    (sent : List JsObj) (v : Option String)
    (hrel : self.context.isRelative = true) (hp : self.parentNavigator = some p)
    (hslow : (self.links != none && (self.context.isResolved
      || (self.context.isAbsolute && self.context.isBad == false))) = false)
    (hgo : (self.context.isBad == false || (self.context.isBad && retry)) = true)
    (hup : (resolve W p { retry := retry, nohead := false } sent).outcome = .fulfilled v)
    (hyes : urlTruthy (lookupLink W (resolve W p { retry := retry, nohead := false } sent).nav
      self.context.resetResolvedState) = true) :
    (resolve W self { retry := retry, nohead := false } sent).sent
      = (resolve W p { retry := retry, nohead := false } sent).sent
        ++ [probeRequest W self
          (lookupLink W (resolve W p { retry := retry, nohead := false } sent).nav
            self.context.resetResolvedState)] := by
  rw [resolve_eq]
  have h1 : (self.setContext self.context.resetResolvedState).context.isRelative = true := by
    rw [context_setContext]
    simpa [NavigatorContext.isRelative, NavigatorContext.resetResolvedState] using hrel
  have h2 : (self.setContext self.context.resetResolvedState).parentNavigator = some p := by
    cases self <;> simp_all [Navigator.setContext, Navigator.parentNavigator]
  have h3 : ∀ (n q : Navigator) (c1 c2 : NavigatorContext) (u : Option String),
      probeRequest W (((n.setContext c1).setParent q).setContext c2) u = probeRequest W n u := by
    intro n q c1 c2 u
    cases n <;> rfl
  have h4 := dispatch_probe_sent W
    (((self.setContext self.context.resetResolvedState).setParent
        (resolve W p { retry := retry, nohead := false } sent).nav).setContext
      (self.context.resetResolvedState.setResolved W
        (lookupLink W (resolve W p { retry := retry, nohead := false } sent).nav
          self.context.resetResolvedState)))
    _ (resolve W p { retry := retry, nohead := false } sent).sent hyes
  rw [h3] at h4
  simp only [resolveBody, hslow, hgo, h1, h2, hup, relative_context, hyes]
  simp only [Bool.false_eq_true, if_false, if_true]
  split
  · exact h4
  · exact h4
  · exact h4

/-- C16: for every Navigator, unresolve() sets the context to Unresolved with
error null and the link cache to null, and leaves the address, the query, the
absoluteness of the context and the parent as they were. The next resolve
without nohead then does not take the memoized branch: it sends a HEAD probe to
the address of the Navigator whenever that address can be determined, that is
when the context is absolute (with a truthy address), or when the parent
resolves and the query matches a link of the parent. -/
theorem C16_unresolve_forces_a_probe (W : Env) (self : Navigator) :
    (unresolve self).context.resolveState = NavigatorContext.UNRESOLVED
      ∧ (unresolve self).context.getError = .null
      ∧ (unresolve self).links = none
      ∧ (unresolve self).context.getUrl = self.context.getUrl
      ∧ (unresolve self).context.query = self.context.query
      ∧ (unresolve self).context.isAbsolute = self.context.isAbsolute
      ∧ (unresolve self).parentNavigator = self.parentNavigator
      ∧ (∀ retry sent, self.context.isAbsolute = true → urlTruthy self.context.getUrl = true →
          (resolve W (unresolve self) { retry := retry, nohead := false } sent).sent
            = sent ++ [probeRequest W self self.context.getUrl])
      ∧ (∀ retry sent p v, self.context.isRelative = true → self.parentNavigator = some p →
          (resolve W p { retry := retry, nohead := false } sent).outcome = .fulfilled v →
          urlTruthy (lookupLink W (resolve W p { retry := retry, nohead := false } sent).nav
            self.context.resetResolvedState) = true →
          (resolve W (unresolve self) { retry := retry, nohead := false } sent).sent
            = (resolve W p { retry := retry, nohead := false } sent).sent
              ++ [probeRequest W self
                (lookupLink W (resolve W p { retry := retry, nohead := false } sent).nav
                  self.context.resetResolvedState)]) := by
  have hc : (unresolve self).context = self.context.resetResolvedState := by
    cases self <;> rfl
  have hl : (unresolve self).links = none := by
    cases self <;> rfl
  have hp : (unresolve self).parentNavigator = self.parentNavigator := by
    cases self <;> rfl
  have hpr : ∀ u, probeRequest W (unresolve self) u = probeRequest W self u := by
    intro u
    cases self <;> rfl
  have hslow : ((unresolve self).links != none && ((unresolve self).context.isResolved
      || ((unresolve self).context.isAbsolute && (unresolve self).context.isBad == false)))
      = false := by
    simp [hl]
  have hbad : (unresolve self).context.isBad = false := by
    rw [hc]
    rfl
  refine ⟨by rw [hc]; rfl, by rw [hc]; rfl, hl, by rw [hc]; rfl, by rw [hc]; rfl,
    by rw [hc]; rfl, hp, ?_, ?_⟩
  · intro retry sent habs hu
    have h := resolve_absolute_head_sent W (unresolve self) retry sent
      (by rw [hc]; exact habs) hslow (by simp [hbad]) (by rw [hc]; exact hu)
    rw [hpr, hc] at h
    exact h
  · intro retry sent p v hrel hpar hup hyes
    have h := resolve_relative_head_sent W (unresolve self) p retry sent v
      (by rw [hc]; exact hrel) (by rw [hp]; exact hpar) hslow (by simp [hbad]) hup
      (by rw [hc]; exact hyes)
    rw [hpr, hc] at h
    exact h

/-- The theorem above on a root that was resolved and had cached links: after
unresolve the next resolve probes the root again. -/
theorem C16_witness :
    (unresolve (linkedRoot (demoEnv alwaysOk))).links = none
      ∧ (resolve (demoEnv alwaysOk) (unresolve (linkedRoot (demoEnv alwaysOk)))
          { retry := false, nohead := false } []).sent = [probe "https://foobar.com"] :=
  have h := C16_unresolve_forces_a_probe (demoEnv alwaysOk) (linkedRoot (demoEnv alwaysOk))
  ⟨h.2.2.1, h.2.2.2.2.2.2.2.1 false [] (by decide) (by decide)⟩

/-! ## Failure of the parent -/

/-- A relative Navigator that goes through resolution and whose parent rejects:
the failure continuation of `resolve` runs on the rejection of the parent. -/
theorem resolve_relative_rejected (W : Env) (self p : Navigator) (options : ResolveOptions)
    (sent : List JsObj) (e : JsError)
    (hrel : self.context.isRelative = true) (hp : self.parentNavigator = some p)
    (hslow : (self.links != none && (self.context.isResolved
      || (self.context.isAbsolute && self.context.isBad == false))) = false)
    (hgo : (self.context.isBad == false || (self.context.isBad && options.retry)) = true)
    (hup : (resolve W p { retry := options.retry, nohead := false } sent).outcome = .rejected e) :
    resolve W self options sent
      = resolveFail ((self.setContext self.context.resetResolvedState).setParent
            (resolve W p { retry := options.retry, nohead := false } sent).nav)
          (resolve W p { retry := options.retry, nohead := false } sent).sent e := by
  rw [resolve_eq]
  have h1 : (self.setContext self.context.resetResolvedState).context.isRelative = true := by
    rw [context_setContext]
    simpa [NavigatorContext.isRelative, NavigatorContext.resetResolvedState] using hrel
  have h2 : (self.setContext self.context.resetResolvedState).parentNavigator = some p := by
    cases self <;> simp_all [Navigator.setContext, Navigator.parentNavigator]
  simp only [resolveBody, hslow, hgo, h1, h2, hup]
  simp

/-- Counterexample to C17 as stated: a relative Navigator that is Resolved and
has a link cache is not Failed, and the resolve of its parent rejects with the
stored 404 response; yet its own resolve takes the memoized branch, fulfills
with `/a` and leaves the context Resolved. -/
theorem C17_counterexample :
    (warmChildOfFailedRoot (demoEnv alwaysOk)).context.isRelative = true
      ∧ (warmChildOfFailedRoot (demoEnv alwaysOk)).context.isBad = false
      ∧ (resolve (demoEnv alwaysOk) (failedRoot (demoEnv alwaysOk))
          { retry := false, nohead := false } []).outcome
        = .rejected (.response { status := 404, reason := "not found", link := none })
      ∧ (resolve (demoEnv alwaysOk) (warmChildOfFailedRoot (demoEnv alwaysOk))
          { retry := false, nohead := false } []).outcome = .fulfilled (some "/a")
      ∧ (resolve (demoEnv alwaysOk) (warmChildOfFailedRoot (demoEnv alwaysOk))
          { retry := false, nohead := false } []).nav.context.isBad = false := by
  decide

/-- C17 (amended): for a relative Navigator that is not memoized (its link cache
is null or its context is not Resolved) and is not Failed (or is resolved with
retry), when the resolve of its parent rejects with an error e, resolve rejects
with the same e and the context becomes Failed with e as its stored error; no
request is sent beyond those of the parent. In particular, when the parent is
already Failed and retry is not requested, no request is sent at all and e is
the stored error of the parent. -/
theorem C17_parent_failure_propagates (W : Env) (self p : Navigator) (options : ResolveOptions)
    (sent : List JsObj) (e : JsError)
    (hrel : self.context.isRelative = true) (hp : self.parentNavigator = some p)
    (hcold : self.links = none ∨ self.context.isResolved = false)
    (hgo : self.context.isBad = false ∨ options.retry = true)
    (hup : (resolve W p { retry := options.retry, nohead := false } sent).outcome = .rejected e) :
    (resolve W self options sent).outcome = .rejected e
      ∧ (resolve W self options sent).nav.context.isBad = true
      ∧ (resolve W self options sent).nav.context.getError = e
      ∧ (resolve W self options sent).sent
        = (resolve W p { retry := options.retry, nohead := false } sent).sent
      ∧ (p.context.isBad = true → options.retry = false →
          (resolve W self options sent).sent = sent ∧ e = p.context.getError) := by
  have habs : self.context.isAbsolute = false := by
    simpa [NavigatorContext.isRelative, NavigatorContext.isAbsolute] using hrel
  have hslow : (self.links != none && (self.context.isResolved
      || (self.context.isAbsolute && self.context.isBad == false))) = false := by
    rcases hcold with h | h <;> simp [h, habs]
  have hgo2 : (self.context.isBad == false || (self.context.isBad && options.retry)) = true := by
    rcases hgo with h | h
    · simp [h]
    · cases hb : self.context.isBad <;> simp [h]
  rw [resolve_relative_rejected W self p options sent e hrel hp hslow hgo2 hup]
  refine ⟨rfl, ?_, ?_, rfl, ?_⟩
  · simp [resolveFail, context_setContext, NavigatorContext.setFailed, NavigatorContext.isBad]
  · simp [resolveFail, context_setContext, NavigatorContext.setFailed, NavigatorContext.getError]
  · intro hpb hnr
    rw [hnr] at hup ⊢
    rw [resolve_failed W p false sent hpb] at hup ⊢
    simp only [Outcome.rejected.injEq] at hup
    exact ⟨rfl, hup.symm⟩

/-- The theorem above on a cold relative Navigator under a root that failed with
a 404 response: rejected with that response, nothing sent. -/
theorem C17_witness :
    (resolve (demoEnv alwaysOk) (coldChildOfFailedRoot (demoEnv alwaysOk))
        { retry := false, nohead := false } []).outcome
        = .rejected (.response { status := 404, reason := "not found", link := none })
      ∧ (resolve (demoEnv alwaysOk) (coldChildOfFailedRoot (demoEnv alwaysOk))
        { retry := false, nohead := false } []).nav.context.isBad = true
      ∧ (resolve (demoEnv alwaysOk) (coldChildOfFailedRoot (demoEnv alwaysOk))
        { retry := false, nohead := false } []).sent = [] :=
  have h := C17_parent_failure_propagates (demoEnv alwaysOk)
    (coldChildOfFailedRoot (demoEnv alwaysOk)) (failedRoot (demoEnv alwaysOk))
    { retry := false, nohead := false } []
    (.response { status := 404, reason := "not found", link := none })
    (by decide) rfl (Or.inl rfl) (Or.inl (by decide)) (by decide)
  ⟨h.1, h.2.1, (h.2.2.2.2 (by decide) rfl).1⟩

/-! ## A Resolved context without address -/

/-- C18, the code at the failing input: on the chain `root.follow({rel:'a'})`,
never resolved, a dispatch with an explicit url succeeds and marks the context
Resolved (source line 184 calls setResolved without url) although the context
has no address; the following resolve takes the memoized branch and fulfills
with `null`. -/
theorem C18_resolved_without_address :
    (dispatch (demoEnv alwaysOk) (aChain (demoEnv alwaysOk)) (some explicitRequest) []).outcome
        = .fulfilled { status := 204, reason := "no content", link := none }
      ∧ (dispatch (demoEnv alwaysOk) (aChain (demoEnv alwaysOk)) (some explicitRequest)
          []).nav.context.isResolved = true
      ∧ (dispatch (demoEnv alwaysOk) (aChain (demoEnv alwaysOk)) (some explicitRequest)
          []).nav.context.getUrl = none
      ∧ (resolve (demoEnv alwaysOk)
          (dispatch (demoEnv alwaysOk) (aChain (demoEnv alwaysOk)) (some explicitRequest) []).nav
          { retry := false, nohead := false }
          (dispatch (demoEnv alwaysOk) (aChain (demoEnv alwaysOk)) (some explicitRequest)
            []).sent).outcome = .fulfilled none := by
  decide

/-! ## The link cache of a resolved parent -/

theorem linksAfter_ne_none (old : Option (List Link)) (res : Response) :
    linksAfter old res ≠ none := by
  unfold linksAfter
  split
  · simp
  · split <;> simp

/-- A dispatch that fulfills leaves a link cache. -/
theorem dispatch_fulfilled_links (W : Env) (self : Navigator) (req : Option JsObj)
    (sent : List JsObj) (res : Response) (h : (dispatch W self req sent).outcome = .fulfilled res) :
    (dispatch W self req sent).nav.links ≠ none := by
  obtain ⟨s, hs⟩ := dispatch_fulfilled W self req sent res h
  rw [hs, dispatchSucceed_nav, links_setLinks]
  exact linksAfter_ne_none _ _

/-- A resolve without `nohead` that fulfills leaves a link cache on its Navigator. -/
theorem resolve_fulfilled_links (W : Env) (self : Navigator) (retry : Bool) (sent : List JsObj)
    (v : Option String) :
    (resolve W self { retry := retry, nohead := false } sent).outcome = .fulfilled v →
      (resolve W self { retry := retry, nohead := false } sent).nav.links ≠ none := by
  rw [resolve_eq]
  unfold resolveBody
  simp only []
  split
  · rename_i hfast
    intro _
    simp only [Bool.and_eq_true, bne_iff_ne, ne_eq] at hfast
    exact hfast.1
  · split
    · split
      · split
        · intro h
          simp at h
        · split
          · intro h
            simp at h
          · intro h
            simp [resolveFail] at h
          · split
            · simp only [Bool.false_eq_true, if_false]
              split
              · rename_i res hres
                intro _
                exact dispatch_fulfilled_links W _ _ _ res hres
              · intro h
                simp [resolveFail] at h
              · intro h
                simp [resolveFail] at h
            · intro h
              simp [resolveFail] at h
      · simp only [Bool.false_eq_true, if_false]
        split
        · rename_i res hres
          intro _
          exact dispatch_fulfilled_links W _ _ _ res hres
        · intro h
          simp at h
        · intro h
          simp at h
    · intro h
      simp at h

/-! ## The link matcher is never asked about a null link list -/

theorem setResolved_withMatcher (W : Env) (f : Option (List Link) → LinkQuery → Option Link)
    (c : NavigatorContext) (u : Option String) :
    NavigatorContext.setResolved (W.withMatcher f) c u = NavigatorContext.setResolved W c u := rfl

theorem linkNotFound_withMatcher (W : Env) (f : Option (List Link) → LinkQuery → Option Link) :
    linkNotFound (W.withMatcher f) = linkNotFound W := rfl

theorem copyAttrs_withMatcher (W : Env) (f : Option (List Link) → LinkQuery → Option Link)
    (defaults : Attrs) (ks : List String) (target : Attrs) :
    copyAttrs (W.withMatcher f) defaults ks target = copyAttrs W defaults ks target := by
  induction ks generalizing target with
  | nil => rfl
  | cons k ks ih =>
    simp only [copyAttrs, ih]
    rfl

theorem copyDefaults_withMatcher (W : Env) (f : Option (List Link) → LinkQuery → Option Link)
    (target defaults : JsObj) :
    copyDefaults (W.withMatcher f) target defaults = copyDefaults W target defaults := by
  induction defaults generalizing target with
  | flat da => simp only [copyDefaults, copyAttrs_withMatcher]
  | nested da dh ih =>
    cases target <;> simp only [copyDefaults, copyAttrs_withMatcher, ih]

theorem dispatchRequest_withMatcher (W : Env) (f : Option (List Link) → LinkQuery → Option Link)
    (self : Navigator) (req : Option JsObj) :
    dispatchRequest (W.withMatcher f) self req = dispatchRequest W self req := by
  unfold dispatchRequest
  simp only [copyDefaults_withMatcher]

/-- The body of `dispatch` does not use the link matcher. -/
theorem dispatchBody_withMatcher (W : Env) (f : Option (List Link) → LinkQuery → Option Link)
    (X : Navigator → ResolveOptions → List JsObj → Run (Option String))
    (self : Navigator) (req : Option JsObj) (sent : List JsObj) :
    dispatchBody (W.withMatcher f) X self req sent = dispatchBody W X self req sent := by
  unfold dispatchBody
  simp only [dispatchRequest_withMatcher]
  rfl

/-- A lookup in a Navigator that has a link cache asks the matcher about that
list only. -/
theorem lookupLink_withMatcher (W : Env) (f : Option (List Link) → LinkQuery → Option Link)
    (hf : ∀ l q, f (some l) q = W.queryLinks1 (some l) q)
    (parent : Navigator) (c : NavigatorContext) (hl : parent.links ≠ none) :
    lookupLink (W.withMatcher f) parent c = lookupLink W parent c := by
  cases hp : parent.links with
  | none => exact absurd hp hl
  | some l =>
    unfold lookupLink
    simp only [hp, Env.withMatcher, hf]

/-- An absolute Navigator resolved with `nohead` never reaches a collaborator. -/
theorem resolve_absolute_nohead_env (W1 W2 : Env) (self : Navigator) (retry : Bool)
    (sent : List JsObj) (habs : self.context.isAbsolute = true) :
    resolve W1 self { retry := retry, nohead := true } sent
      = resolve W2 self { retry := retry, nohead := true } sent := by
  have h1 : (self.setContext self.context.resetResolvedState).context.isRelative = false := by
    rw [context_setContext]
    simpa [NavigatorContext.isRelative, NavigatorContext.resetResolvedState,
      NavigatorContext.isAbsolute] using habs
  rw [resolve_eq, resolve_eq]
  simp [resolveBody, h1]

/-- The body of `resolve` under another link matcher, when the callees agree and
a parent that resolved has a link cache. -/
theorem resolveBody_withMatcher (W : Env) (f : Option (List Link) → LinkQuery → Option Link)
    (hf : ∀ l q, f (some l) q = W.queryLinks1 (some l) q)
    (up1 up2 : Navigator → ResolveOptions → List JsObj → Run (Option String))
    (D1 D2 : Navigator → Option JsObj → List JsObj → Run Response)
    (self : Navigator) (options : ResolveOptions) (sent : List JsObj)
    (hup : ∀ p o s, self.parentNavigator = some p → up1 p o s = up2 p o s)
    (hlinks : ∀ p v, self.parentNavigator = some p →
      (up2 p { retry := options.retry, nohead := false } sent).outcome = .fulfilled v →
      (up2 p { retry := options.retry, nohead := false } sent).nav.links ≠ none)
    (hrel : ∀ n u s, urlTruthy u = true →
      D1 n (some (headRequest u)) s = D2 n (some (headRequest u)) s)
    (habs : self.context.isAbsolute = true →
      D1 (self.setContext self.context.resetResolvedState)
        (some (headRequest (self.setContext self.context.resetResolvedState).context.getUrl)) sent
      = D2 (self.setContext self.context.resetResolvedState)
        (some (headRequest (self.setContext self.context.resetResolvedState).context.getUrl)) sent) :
    resolveBody (W.withMatcher f) up1 D1 self options sent
      = resolveBody W up2 D2 self options sent := by
  have hpar : (self.setContext self.context.resetResolvedState).parentNavigator
      = self.parentNavigator := by
    cases self <;> rfl
  have hrelc : (self.setContext self.context.resetResolvedState).context.isRelative
      = self.context.isRelative := by
    rw [context_setContext]
    rfl
  unfold resolveBody
  simp only [setResolved_withMatcher, linkNotFound_withMatcher]
  split
  · rfl
  · split
    · split
      · split
        · rfl
        · rename_i parent hp
          rw [hpar] at hp
          rw [hup parent _ _ hp]
          split
          · rfl
          · rfl
          · rename_i v hv
            rw [lookupLink_withMatcher W f hf _ _ (hlinks parent v hp hv)]
            split
            · rename_i hu
              split
              · rfl
              · rw [hrel _ _ _ hu]
            · rfl
      · rename_i hnr
        split
        · rfl
        · have ha : self.context.isAbsolute = true := by
            rw [hrelc] at hnr
            simpa [NavigatorContext.isRelative, NavigatorContext.isAbsolute] using hnr
          rw [habs ha]
    · rfl

/-- The resolution of a Navigator does not depend on what the link matcher
answers on a `null` link list. -/
theorem resolve_withMatcher (W : Env) (f : Option (List Link) → LinkQuery → Option Link)
    (hf : ∀ l q, f (some l) q = W.queryLinks1 (some l) q) :
    ∀ (self : Navigator) (options : ResolveOptions) (sent : List JsObj),
      resolve (W.withMatcher f) self options sent = resolve W self options sent := by
  intro self
  induction self with
  | orphan c l d =>
    intro options sent
    rw [resolve_eq, resolve_eq W]
    apply resolveBody_withMatcher W f hf
    · intro p o s hp
      simp [Navigator.parentNavigator] at hp
    · intro p v hp
      simp [Navigator.parentNavigator] at hp
    · intro n u s hu
      rw [dispatch_eq, dispatch_eq, dispatchBody_withMatcher]
      exact dispatchBody_explicit W _ _ n _ s
        (by rw [dispatchRequest_head_url W n u hu]; exact urlTruthy_ofUrl hu)
    · intro ha
      rw [dispatch_eq, dispatch_eq, dispatchBody_withMatcher]
      apply dispatchBody_congr
      intro retry
      exact resolve_absolute_nohead_env _ _ _ retry sent
        (by rw [context_setContext]; exact ha)
  | child c p l d ih =>
    intro options sent
    rw [resolve_eq, resolve_eq W]
    apply resolveBody_withMatcher W f hf
    · intro q o s hq
      simp only [Navigator.parentNavigator, Option.some.injEq] at hq
      subst hq
      exact ih o s
    · intro q v hq hv
      exact resolve_fulfilled_links W q options.retry sent v hv
    · intro n u s hu
      rw [dispatch_eq, dispatch_eq, dispatchBody_withMatcher]
      exact dispatchBody_explicit W _ _ n _ s
        (by rw [dispatchRequest_head_url W n u hu]; exact urlTruthy_ofUrl hu)
    · intro ha
      rw [dispatch_eq, dispatch_eq, dispatchBody_withMatcher]
      apply dispatchBody_congr
      intro retry
      exact resolve_absolute_nohead_env _ _ _ retry sent
        (by rw [context_setContext]; exact ha)

/-- A dispatch does not depend on what the link matcher answers on a `null`
link list. -/
theorem dispatch_withMatcher (W : Env) (f : Option (List Link) → LinkQuery → Option Link)
    (hf : ∀ l q, f (some l) q = W.queryLinks1 (some l) q)
    (self : Navigator) (req : Option JsObj) (sent : List JsObj) :
    dispatch (W.withMatcher f) self req sent = dispatch W self req sent := by
  rw [dispatch_eq, dispatch_eq, dispatchBody_withMatcher]
  apply dispatchBody_congr
  intro retry
  exact resolve_withMatcher W f hf self _ sent

/-- C20: for every chain and every options value passed to resolve (nohead
included), a lookup of a query in a parent runs only after the resolution of the
parent has fulfilled, and the parent then has a non-null link cache. The lookup
never runs against a null link list: replacing the link matcher by one that
answers differently on a null list changes no resolve and no dispatch. -/
theorem C20_lookup_never_sees_null_links (W : Env)
    (f : Option (List Link) → LinkQuery → Option Link)
    (hf : ∀ l q, f (some l) q = W.queryLinks1 (some l) q)
    (self : Navigator) (options : ResolveOptions) (sent : List JsObj) :
    resolve (W.withMatcher f) self options sent = resolve W self options sent
      ∧ (∀ req, dispatch (W.withMatcher f) self req sent = dispatch W self req sent)
      ∧ (∀ p v, self.parentNavigator = some p →
          (resolve W p { retry := options.retry, nohead := false } sent).outcome = .fulfilled v →
          (resolve W p { retry := options.retry, nohead := false } sent).nav.links ≠ none) :=
  ⟨resolve_withMatcher W f hf self options sent,
    fun req => dispatch_withMatcher W f hf self req sent,
    fun p v _ hv => resolve_fulfilled_links W p options.retry sent v hv⟩

/-- The theorem above on the chain root, a, b and a matcher that would answer
on a null link list. -/
theorem C20_witness :
    resolve ((demoEnv abTransport).withMatcher eagerMatcher)
        (abChain (demoEnv abTransport) "https://foobar.com") { retry := false, nohead := true } []
      = resolve (demoEnv abTransport)
        (abChain (demoEnv abTransport) "https://foobar.com") { retry := false, nohead := true } [] :=
  (C20_lookup_never_sees_null_links (demoEnv abTransport) eagerMatcher (fun _ _ => rfl)
    (abChain (demoEnv abTransport) "https://foobar.com") { retry := false, nohead := true } []).1

/-! ## A dispatch whose own request fails -/

/-- A resolve with `nohead` that fulfills leaves a context that is not Failed. -/
theorem resolve_nohead_fulfilled_not_bad (W : Env) (self : Navigator) (retry : Bool)
    (sent : List JsObj) (u : Option String) :
    (resolve W self { retry := retry, nohead := true } sent).outcome = .fulfilled u →
      (resolve W self { retry := retry, nohead := true } sent).nav.context.isBad = false := by
  rw [resolve_eq]
  unfold resolveBody
  simp only []
  split
  · rename_i hfast
    intro _
    simp only [Bool.and_eq_true, Bool.or_eq_true, beq_iff_eq] at hfast
    rcases hfast.2 with h | h
    · cases hb : self.context.isBad
      · rfl
      · rw [isResolved_of_isBad hb] at h
        simp at h
    · exact h.2
  · split
    · split
      · split
        · intro h
          simp at h
        · split
          · intro h
            simp at h
          · intro h
            simp [resolveFail] at h
          · split
            · simp only [if_true]
              intro _
              rw [context_setContext]
              cases hl : lookupLink W _ _ with
              | none => rfl
              | some x =>
                simp only [NavigatorContext.setResolved]
                split <;> rfl
            · intro h
              simp [resolveFail] at h
      · simp only [if_true]
        intro _
        rw [context_setContext]
        rfl
    · intro h
      simp at h

/-- C5 (amended): when the request of a dispatch reaches the transport and is
rejected there with a status other than the LINK_NOT_FOUND pseudo-status and
404, the dispatch rejects with that response and the context is not marked
Failed. With an explicit (truthy) url the Navigator, resolution state included,
is the same as before the dispatch. With no url, where the resolution through
the parent chain fulfilled first, the Navigator is as that resolution left it
and its context is not Failed. When instead that resolution is rejected because
the resolve of the parent rejects with a response, of any status, a dispatch
with no url on a relative Navigator that is not memoized (and not Failed unless
retry is set) rejects with that response and leaves the context Failed with it. -/
theorem C5_request_failure_does_not_mark_failed (W : Env) (self : Navigator)
    (req : Option JsObj) (sent : List JsObj) (res : Response)
    (h1 : res.status ≠ W.LINK_NOT_FOUND) (h2 : res.status ≠ 404) :
    (((dispatchRequest W self req).get "url").truthy = true →
        W.dispatch sent ((dispatchRequest W self req).set "url"
          ((dispatchRequest W self req).get "url")) = .fail res →
        (dispatch W self req sent).outcome = .rejected (.response res)
          ∧ (dispatch W self req sent).nav = self
          ∧ (dispatch W self req sent).nav.context.resolveState = self.context.resolveState)
      ∧ (∀ u, ((dispatchRequest W self req).get "url").truthy = false →
          (resolve W self
            { retry := ((dispatchRequest W self req).get "retry").truthy, nohead := true }
            sent).outcome = .fulfilled u →
          W.dispatch (resolve W self
              { retry := ((dispatchRequest W self req).get "retry").truthy, nohead := true }
              sent).sent
            ((dispatchRequest W self req).set "url" (JsVal.ofUrl u)) = .fail res →
          (dispatch W self req sent).outcome = .rejected (.response res)
            ∧ (dispatch W self req sent).nav
              = (resolve W self
                  { retry := ((dispatchRequest W self req).get "retry").truthy, nohead := true }
                  sent).nav
            ∧ (dispatch W self req sent).nav.context.isBad = false)
      ∧ (∀ p r, ((dispatchRequest W self req).get "url").truthy = false →
          self.context.isRelative = true → self.parentNavigator = some p →
          (self.links = none ∨ self.context.isResolved = false) →
          (self.context.isBad = false
            ∨ ((dispatchRequest W self req).get "retry").truthy = true) →
          (resolve W p
            { retry := ((dispatchRequest W self req).get "retry").truthy, nohead := false }
            sent).outcome = .rejected (.response r) →
          (dispatch W self req sent).outcome = .rejected (.response r)
            ∧ (dispatch W self req sent).nav.context.isBad = true
            ∧ (dispatch W self req sent).nav.context.getError = .response r) := by
  have hf : ∀ (n : Navigator) (s : List JsObj),
      dispatchFail W n s (.response res)
        = { nav := n, sent := s, outcome := .rejected (.response res) } := by
    intro n s
    simp [dispatchFail, h1, h2]
  refine ⟨?_, ?_, ?_⟩
  · intro hurl hfail
    have hd : dispatch W self req sent
        = dispatchFail W self
            (sent ++ [(dispatchRequest W self req).set "url"
              ((dispatchRequest W self req).get "url")]) (.response res) := by
      simp only [dispatch, dispatchBody, dispatchTarget, hurl, if_true]
      rw [hfail]
    rw [hd, hf]
    exact ⟨rfl, rfl, rfl⟩
  · intro u hurl hres hfail
    have hd : dispatch W self req sent
        = dispatchFail W
            (resolve W self
              { retry := ((dispatchRequest W self req).get "retry").truthy, nohead := true }
              sent).nav
            ((resolve W self
              { retry := ((dispatchRequest W self req).get "retry").truthy, nohead := true }
              sent).sent ++ [(dispatchRequest W self req).set "url" (JsVal.ofUrl u)])
            (.response res) := by
      simp only [dispatch, dispatchBody, dispatchTarget, hurl, hres]
      simp only [Bool.false_eq_true, if_false]
      rw [hfail]
    rw [hd, hf]
    exact ⟨rfl, rfl, resolve_nohead_fulfilled_not_bad W self _ sent u hres⟩
  · intro p r hurl hrel hp hcold hgo hup
    have habs : self.context.isAbsolute = false := by
      simpa [NavigatorContext.isRelative, NavigatorContext.isAbsolute] using hrel
    have hslow : (self.links != none && (self.context.isResolved
        || (self.context.isAbsolute && self.context.isBad == false))) = false := by
      rcases hcold with h | h <;> simp [h, habs]
    have hgo2 : (self.context.isBad == false || (self.context.isBad
        && ((dispatchRequest W self req).get "retry").truthy)) = true := by
      rcases hgo with h | h
      · simp [h]
      · cases hb : self.context.isBad <;> simp [h]
    have hr := resolve_relative_rejected W self p
      { retry := ((dispatchRequest W self req).get "retry").truthy, nohead := true } sent
      (.response r) hrel hp hslow hgo2 hup
    have hd : dispatch W self req sent
        = dispatchFail W
            (resolve W self
              { retry := ((dispatchRequest W self req).get "retry").truthy, nohead := true }
              sent).nav
            (resolve W self
              { retry := ((dispatchRequest W self req).get "retry").truthy, nohead := true }
              sent).sent
            (.response r) := by
      simp only [dispatch, dispatchBody, dispatchTarget, hurl]
      simp only [Bool.false_eq_true, if_false]
      rw [hr]
      simp [resolveFail]
    rw [hd, hr]
    simp only [dispatchFail, resolveFail]
    split <;>
      simp [context_setContext, NavigatorContext.setFailed, NavigatorContext.isBad,
        NavigatorContext.getError]

/-- The theorem above on the chain `root.follow({rel:'a'})`, resolved through a
root that answers with the link `a -> /a`, for a GET without url that the
transport rejects with status 500: the context ends Resolved, not Failed. -/
theorem C5_witness :
    (dispatch (demoEnv failLeaf500) (aChain (demoEnv failLeaf500)) (some getRequest) []).outcome
        = .rejected (.response { status := 500, reason := "failed", link := none })
      ∧ (dispatch (demoEnv failLeaf500) (aChain (demoEnv failLeaf500)) (some getRequest)
          []).nav.context.isBad = false :=
  have h := (C5_request_failure_does_not_mark_failed (demoEnv failLeaf500)
    (aChain (demoEnv failLeaf500)) (some getRequest) []
    { status := 500, reason := "failed", link := none } (by decide) (by decide)).2.1
    (some "/a") (by decide) (by decide) (by decide)
  ⟨h.1, h.2.2⟩

/-! ## copyDefaults on a store: the defaults are left alone -/

theorem Holds_head (h : Heap) (v : JsObj) (r : Nat) (fp : List Nat) (hv : Holds h v r fp) :
    ∃ fp1, fp = r :: fp1 := by
  cases v with
  | flat a => exact ⟨[], hv.1⟩
  | nested a v =>
    obtain ⟨hr, fp1, e, _, _⟩ := hv
    exact ⟨fp1, e⟩

theorem Holds_cell (h : Heap) (v : JsObj) (r : Nat) (fp : List Nat) (hv : Holds h v r fp) :
    ∃ c, h[r]? = some c ∧ c.attrs = v.attrs := by
  cases v with
  | flat a => exact ⟨_, hv.2, rfl⟩
  | nested a v =>
    obtain ⟨hr, fp1, _, e, _⟩ := hv
    exact ⟨_, e, rfl⟩

/-- Every cell of an object in the store is allocated. -/
theorem Holds_lt (h : Heap) (v : JsObj) :
    ∀ (r : Nat) (fp : List Nat), Holds h v r fp → ∀ x ∈ fp, x < h.length := by
  induction v with
  | flat a =>
    intro r fp hv x hx
    obtain ⟨e, hc⟩ := hv
    subst e
    simp only [List.mem_singleton] at hx
    subst hx
    obtain ⟨hlt, _⟩ := List.getElem?_eq_some.mp hc
    exact hlt
  | nested a v ih =>
    intro r fp hv x hx
    obtain ⟨hr, fp1, e, hc, hrest⟩ := hv
    subst e
    rcases List.mem_cons.mp hx with e | e
    · subst e
      obtain ⟨hlt, _⟩ := List.getElem?_eq_some.mp hc
      exact hlt
    · exact ih hr fp1 hrest x e

/-- An object is still in the store when its cells are unchanged. -/
theorem Holds_frame (h h2 : Heap) (v : JsObj) :
    ∀ (r : Nat) (fp : List Nat), Holds h v r fp → (∀ x ∈ fp, h2[x]? = h[x]?) →
      Holds h2 v r fp := by
  induction v with
  | flat a =>
    intro r fp hv hsame
    obtain ⟨e, hc⟩ := hv
    subst e
    exact ⟨rfl, by rw [hsame r (List.mem_singleton.mpr rfl)]; exact hc⟩
  | nested a v ih =>
    intro r fp hv hsame
    obtain ⟨hr, fp1, e, hc, hrest⟩ := hv
    subst e
    refine ⟨hr, fp1, rfl, ?_, ih hr fp1 hrest ?_⟩
    · rw [hsame r (List.mem_cons_self _ _)]
      exact hc
    · intro x hx
      exact hsame x (List.mem_cons_of_mem _ hx)

/-- The cells of an object are determined by the store and the reference. -/
theorem Holds_footprint (h : Heap) (v1 : JsObj) :
    ∀ (v2 : JsObj) (r : Nat) (fp1 fp2 : List Nat),
      Holds h v1 r fp1 → Holds h v2 r fp2 → fp1 = fp2 := by
  induction v1 with
  | flat a =>
    intro v2 r fp1 fp2 h1 h2
    obtain ⟨e1, c1⟩ := h1
    cases v2 with
    | flat b =>
      obtain ⟨e2, _⟩ := h2
      rw [e1, e2]
    | nested b v =>
      obtain ⟨hr, fp3, _, c2, _⟩ := h2
      rw [c1] at c2
      simp at c2
  | nested a v ih =>
    intro v2 r fp1 fp2 h1 h2
    obtain ⟨hr, fp3, e1, c1, rest1⟩ := h1
    cases v2 with
    | flat b =>
      obtain ⟨_, c2⟩ := h2
      rw [c1] at c2
      simp at c2
    | nested b w =>
      obtain ⟨hr2, fp4, e2, c2, rest2⟩ := h2
      rw [c1] at c2
      simp only [Option.some.injEq, Cell.mk.injEq] at c2
      obtain ⟨_, ehr⟩ := c2
      subst ehr
      rw [e1, e2, ih w hr fp3 fp4 rest1 rest2]

/-- Every cell of an object holds an object itself, in no more cells. -/
theorem Holds_mem (h : Heap) (v : JsObj) :
    ∀ (r : Nat) (fp : List Nat), Holds h v r fp → ∀ x ∈ fp,
      ∃ v2 fp2, Holds h v2 x fp2 ∧ fp2.length ≤ fp.length := by
  induction v with
  | flat a =>
    intro r fp hv x hx
    have e := hv.1
    subst e
    simp only [List.mem_singleton] at hx
    subst hx
    exact ⟨.flat a, [x], hv, le_refl _⟩
  | nested a v ih =>
    intro r fp hv x hx
    obtain ⟨hr, fp1, e, hc, hrest⟩ := hv
    subst e
    rcases List.mem_cons.mp hx with e | e
    · subst e
      exact ⟨.nested a v, x :: fp1, ⟨hr, fp1, rfl, hc, hrest⟩, le_refl _⟩
    · obtain ⟨v2, fp2, h2, hle⟩ := ih hr fp1 hrest x e
      exact ⟨v2, fp2, h2, by simp only [List.length_cons]; omega⟩

/-- The cells of an object are pairwise distinct: `headers` does not loop. -/
theorem Holds_nodup (h : Heap) (v : JsObj) :
    ∀ (r : Nat) (fp : List Nat), Holds h v r fp → fp.Nodup := by
  induction v with
  | flat a =>
    intro r fp hv
    rw [hv.1]
    exact List.nodup_singleton r
  | nested a v ih =>
    intro r fp hv
    obtain ⟨hr, fp1, e, hc, hrest⟩ := hv
    subst e
    refine List.nodup_cons.mpr ⟨?_, ih hr fp1 hrest⟩
    intro hmem
    obtain ⟨v2, fp2, h2, hle⟩ := Holds_mem h v hr fp1 hrest r hmem
    have := Holds_footprint h (.nested a v) v2 r (r :: fp1) fp2 ⟨hr, fp1, rfl, hc, hrest⟩ h2
    rw [← this] at hle
    simp only [List.length_cons] at hle
    omega

/-- On a store where the request and the defaults share no cell, and with fuel
beyond the depth of the defaults, `copyDefaultsH` leaves at the reference of
the request the object that `copyDefaults` computes from the two objects, and
changes no allocated cell outside the request. -/
theorem copyDefaultsH_spec (W : Env) (dv : JsObj) :
    ∀ (fuel : Nat) (h : Heap) (t d : Nat) (tv : JsObj) (fpt fpd : List Nat),
      dv.depth < fuel → Holds h tv t fpt → Holds h dv d fpd → (∀ x ∈ fpt, x ∉ fpd) →
      (∃ fp, Holds (copyDefaultsH W fuel h t d) (copyDefaults W tv dv) t fp)
        ∧ (∀ x, x < h.length → x ∉ fpt → (copyDefaultsH W fuel h t d)[x]? = h[x]?) := by
  induction dv with
  | flat da =>
    intro fuel h t d tv fpt fpd hfuel ht hd hdis
    cases fuel with
    | zero => simp at hfuel
    | succ f =>
      obtain ⟨efd, hdc⟩ := hd
      obtain ⟨fpt1, eft⟩ := Holds_head h tv t fpt ht
      have hnd := Holds_nodup h tv t fpt ht
      subst eft
      subst efd
      have hne : t ≠ d := by
        intro e
        exact hdis t (List.mem_cons_self _ _) (by rw [e]; exact List.mem_singleton.mpr rfl)
      obtain ⟨tc, htc, hta⟩ := Holds_cell h tv t _ ht
      have hlt : t < h.length := (List.getElem?_eq_some.mp htc).1
      have hres : copyDefaultsH W (f + 1) h t d
          = h.set t { tc with attrs := copyAttrs W da (da.map Prod.fst) tc.attrs } := by
        simp only [copyDefaultsH, hdc, htc, List.getElem?_set_ne hne]
      rw [hres]
      constructor
      · cases tv with
        | flat ta =>
          obtain ⟨_, hc⟩ := ht
          rw [htc] at hc
          simp only [Option.some.injEq] at hc
          subst hc
          exact ⟨[t], rfl, by rw [List.getElem?_set_self hlt]; rfl⟩
        | nested ta thv =>
          obtain ⟨th, fp1, e, hc, hrest⟩ := ht
          simp only [List.cons.injEq, true_and] at e
          subst e
          rw [htc] at hc
          simp only [Option.some.injEq] at hc
          subst hc
          refine ⟨t :: fpt1, th, fpt1, rfl, by rw [List.getElem?_set_self hlt]; rfl, ?_⟩
          apply Holds_frame h _ thv th fpt1 hrest
          intro x hx
          have hxt : t ≠ x := by
            intro e
            subst e
            exact (List.nodup_cons.mp hnd).1 hx
          exact List.getElem?_set_ne hxt
      · intro x _ hx
        have hxt : t ≠ x := by
          intro e
          subst e
          exact hx (List.mem_cons_self _ _)
        exact List.getElem?_set_ne hxt
  | nested da dhv ih =>
    intro fuel h t d tv fpt fpd hfuel ht hd hdis
    cases fuel with
    | zero => simp at hfuel
    | succ f =>
      have hf : dhv.depth < f := by
        simp only [JsObj.depth] at hfuel
        omega
      obtain ⟨dh, fpd1, efd, hdc, hdrest⟩ := hd
      obtain ⟨fpt1, eft⟩ := Holds_head h tv t fpt ht
      have hnd := Holds_nodup h tv t fpt ht
      subst eft
      subst efd
      have hne : t ≠ d := by
        intro e
        exact hdis t (List.mem_cons_self _ _) (by rw [e]; exact List.mem_cons_self _ _)
      have htd1 : ∀ x ∈ fpd1, t ≠ x := by
        intro x hx e
        subst e
        exact hdis t (List.mem_cons_self _ _) (List.mem_cons_of_mem _ hx)
      have hltd : ∀ x ∈ fpd1, x < h.length := Holds_lt h dhv dh fpd1 hdrest
      obtain ⟨tc, htc, hta⟩ := Holds_cell h tv t _ ht
      have hlt : t < h.length := (List.getElem?_eq_some.mp htc).1
      cases tv with
      | nested ta thv =>
        obtain ⟨th, fp1, e, hc, hrest⟩ := ht
        simp only [List.cons.injEq, true_and] at e
        subst e
        rw [htc] at hc
        simp only [Option.some.injEq] at hc
        subst hc
        have htn : ∀ x ∈ fpt1, t ≠ x := by
          intro x hx e
          subst e
          exact (List.nodup_cons.mp hnd).1 hx
        have hres : copyDefaultsH W (f + 1) h t d
            = copyDefaultsH W f
                (h.set t { attrs := copyAttrs W da (da.map Prod.fst) ta, headers := some th })
                th dh := by
          simp only [copyDefaultsH, hdc, htc, List.getElem?_set_ne hne,
            List.getElem?_set_self hlt]
        rw [hres]
        have h1t : Holds (h.set t
            { attrs := copyAttrs W da (da.map Prod.fst) ta, headers := some th }) thv th fpt1 :=
          Holds_frame h _ thv th fpt1 hrest (fun x hx => List.getElem?_set_ne (htn x hx))
        have h1d : Holds (h.set t
            { attrs := copyAttrs W da (da.map Prod.fst) ta, headers := some th }) dhv dh fpd1 :=
          Holds_frame h _ dhv dh fpd1 hdrest (fun x hx => List.getElem?_set_ne (htd1 x hx))
        obtain ⟨⟨fp2, hfp2⟩, hfr⟩ := ih f _ th dh thv fpt1 fpd1 hf h1t h1d
          (fun x hx hx2 => hdis x (List.mem_cons_of_mem _ hx) (List.mem_cons_of_mem _ hx2))
        constructor
        · refine ⟨t :: fp2, th, fp2, rfl, ?_, hfp2⟩
          rw [hfr t (by rw [List.length_set]; exact hlt) (List.nodup_cons.mp hnd).1,
            List.getElem?_set_self hlt]
          rfl
        · intro x hx hxn
          have hxt : t ≠ x := by
            intro e
            subst e
            exact hxn (List.mem_cons_self _ _)
          rw [hfr x (by rw [List.length_set]; exact hx)
            (fun hm => hxn (List.mem_cons_of_mem _ hm)), List.getElem?_set_ne hxt]
      | flat ta =>
        obtain ⟨e, hc⟩ := ht
        simp only [List.cons.injEq, true_and] at e
        subst e
        rw [htc] at hc
        simp only [Option.some.injEq] at hc
        subst hc
        have hres : copyDefaultsH W (f + 1) h t d
            = copyDefaultsH W f
                ((h.set t (Cell.mk (copyAttrs W da (da.map Prod.fst) ta) (some h.length)))
                  ++ [{ attrs := [], headers := none }])
                h.length dh := by
          simp only [copyDefaultsH, hdc, htc, List.getElem?_set_ne hne,
            List.getElem?_set_self hlt, List.length_set, List.set_set]
        rw [hres]
        have hlen : (h.set t (Cell.mk (copyAttrs W da (da.map Prod.fst) ta) (some h.length))).length = h.length := List.length_set _ _ _
        have hold : ∀ x, x < h.length → t ≠ x →
            ((h.set t (Cell.mk (copyAttrs W da (da.map Prod.fst) ta) (some h.length)))
              ++ [{ attrs := [], headers := none }])[x]? = h[x]? := by
          intro x hx hxt
          rw [List.getElem?_append_left (by rw [hlen]; exact hx), List.getElem?_set_ne hxt]
        have h2f : Holds ((h.set t (Cell.mk (copyAttrs W da (da.map Prod.fst) ta) (some h.length)))
            ++ [{ attrs := [], headers := none }]) (.flat []) h.length [h.length] := by
          refine ⟨rfl, ?_⟩
          have := List.getElem?_concat_length
            (h.set t (Cell.mk (copyAttrs W da (da.map Prod.fst) ta) (some h.length)))
            ({ attrs := [], headers := none } : Cell)
          rw [hlen] at this
          exact this
        have h2d : Holds ((h.set t (Cell.mk (copyAttrs W da (da.map Prod.fst) ta) (some h.length)))
            ++ [{ attrs := [], headers := none }]) dhv dh fpd1 :=
          Holds_frame h _ dhv dh fpd1 hdrest (fun x hx => hold x (hltd x hx) (htd1 x hx))
        obtain ⟨⟨fp2, hfp2⟩, hfr⟩ := ih f _ h.length dh (.flat []) [h.length] fpd1 hf h2f h2d
          (fun x hx hx2 => by
            simp only [List.mem_singleton] at hx
            subst hx
            exact Nat.lt_irrefl _ (hltd _ hx2))
        have hlen2 : ((h.set t (Cell.mk (copyAttrs W da (da.map Prod.fst) ta) (some h.length)))
            ++ [Cell.mk [] none]).length = h.length + 1 := by
          rw [List.length_append, hlen]
          rfl
        constructor
        · refine ⟨t :: fp2, h.length, fp2, rfl, ?_, hfp2⟩
          rw [hfr t (by rw [hlen2]; omega)
            (by simp only [List.mem_singleton]; omega),
            List.getElem?_append_left (by rw [hlen]; exact hlt), List.getElem?_set_self hlt]
          rfl
        · intro x hx hxn
          have hxt : t ≠ x := by
            intro e
            subst e
            exact hxn (List.mem_singleton.mpr rfl)
          rw [hfr x (by rw [hlen2]; omega) (by simp only [List.mem_singleton]; omega),
            hold x hx hxt]

/-! ## The merge of defaults -/

/-- Counterexample to C9 as stated, in two parts. The request holds the header
`accept` with the value '' and the defaults hold `accept: 'json'`: after the
merge the header is there but its original value is gone. And when the
`headers` of the request is the defaults object itself (`r = { headers: d }`
with `d = { method: 'GET', headers: { accept: 'json' } }`), the merge writes
`accept` onto d: the defaults object is changed. -/
theorem C9_counterexample :
    emptyAcceptRequest.headers = some (.flat [("accept", .str "")])
      ∧ (copyDefaults (demoEnv alwaysOk) emptyAcceptRequest acceptDefaults).headers
        = some (.flat [("accept", .str "json")])
      ∧ aliasedHeap[0]? = some (Cell.mk [("method", .str "GET")] (some 1))
      ∧ aliasedHeap[2]? = some (Cell.mk [] (some 0))
      ∧ (copyDefaultsH (demoEnv alwaysOk) 3 aliasedHeap 2 0)[0]?
        = some (Cell.mk [("method", .str "GET"), ("accept", .str "json")] (some 1)) := by
  decide

/-- C9 (amended): after copyDefaults(r, d), every key of d other than `headers`
is defined on r; when d has headers, r.headers contains every header name that
was in r.headers before the merge, with its original value when that value is
truthy, together with every header name of d.headers; when d has no headers,
r.headers is as before. The defaults {headers:{accept:'json'}, method:'GET'}
merged into {headers:{authorization:'x'}} give headers
{authorization:'x', accept:'json'} and method 'GET'. When r and d share no
object (r, r.headers, ... are all distinct from d, d.headers, ...), the merge
done in place leaves every object of d unchanged, so d is the same object value
after the merge, and r holds the merged value described above. -/
theorem C9_merge_of_defaults (W : Env) (r d : JsObj) :
    (∀ k, k ≠ "headers" → hasProp d.attrs k = true → hasProp (copyDefaults W r d).attrs k = true)
      ∧ (∀ dh, d.headers = some dh →
          ∃ rh, (copyDefaults W r d).headers = some rh
            ∧ (∀ k, k ≠ "headers" → hasProp dh.attrs k = true → hasProp rh.attrs k = true)
            ∧ (∀ th, r.headers = some th → ∀ k, hasProp th.attrs k = true →
                hasProp rh.attrs k = true)
            ∧ (∀ th, r.headers = some th → ∀ k, (th.get k).truthy = true →
                rh.get k = th.get k))
      ∧ (d.headers = none → (copyDefaults W r d).headers = r.headers)
      ∧ copyDefaults W authRequest acceptDefaults
        = .nested [("method", .str "GET")]
            (.flat [("authorization", .str "x"), ("accept", .str "json")])
      ∧ (∀ (fuel : Nat) (h : Heap) (rref dref : Nat) (fpr fpd : List Nat),
          d.depth < fuel → Holds h r rref fpr → Holds h d dref fpd →
          (∀ x ∈ fpr, x ∉ fpd) →
          (∀ x ∈ fpd, (copyDefaultsH W fuel h rref dref)[x]? = h[x]?)
            ∧ Holds (copyDefaultsH W fuel h rref dref) d dref fpd
            ∧ ∃ fp, Holds (copyDefaultsH W fuel h rref dref) (copyDefaults W r d) rref fp) := by
  refine ⟨fun k hne h => copyDefaults_hasProp_key W r d k hne h, ?_, ?_, rfl, ?_⟩
  · intro dh hdh
    cases d with
    | flat da => simp [JsObj.headers] at hdh
    | nested da dh2 =>
      simp only [JsObj.headers, Option.some.injEq] at hdh
      subst hdh
      refine ⟨_, copyDefaults_headers_nested W r da dh2, ?_, ?_, ?_⟩
      · intro k hne h
        exact copyDefaults_hasProp_key W _ dh2 k hne h
      · intro th hth k h
        rw [hth]
        exact copyDefaults_hasProp_mono W th dh2 k h
      · intro th hth k h
        rw [hth]
        exact copyDefaults_truthy W th dh2 k h
  · intro hnone
    cases d with
    | flat da => exact copyDefaults_headers_flat W r da
    | nested da dh2 => simp [JsObj.headers] at hnone
  · intro fuel h rref dref fpr fpd hfuel hr hd hdis
    obtain ⟨hex, hfr⟩ := copyDefaultsH_spec W d fuel h rref dref r fpr fpd hfuel hr hd hdis
    have hsame : ∀ x ∈ fpd, (copyDefaultsH W fuel h rref dref)[x]? = h[x]? := by
      intro x hx
      exact hfr x (Holds_lt h d dref fpd hd x hx) (fun hm => hdis x hm hx)
    exact ⟨hsame, Holds_frame h _ d dref fpd hd hsame, hex⟩

/-- The theorem above on the request `{ headers: { authorization: 'x' } }` and
the defaults `{ headers: { accept: 'json' }, method: 'GET' }`, held by a store
in which they share no object. -/
theorem C9_witness :
    (copyDefaultsH (demoEnv alwaysOk) 2 separateHeap 2 0)[0]? = separateHeap[0]?
      ∧ (copyDefaultsH (demoEnv alwaysOk) 2 separateHeap 2 0)[1]? = separateHeap[1]?
      ∧ ∃ fp, Holds (copyDefaultsH (demoEnv alwaysOk) 2 separateHeap 2 0)
          (.nested [("method", .str "GET")]
            (.flat [("authorization", .str "x"), ("accept", .str "json")])) 2 fp :=
  have h := (C9_merge_of_defaults (demoEnv alwaysOk) authRequest acceptDefaults).2.2.2.2
    2 separateHeap 2 0 [2, 3] [0, 1] (by decide)
    ⟨3, [3], rfl, rfl, rfl, rfl⟩ ⟨1, [1], rfl, rfl, rfl, rfl⟩ (by decide)
  ⟨h.1 0 (by decide), h.1 1 (by decide), h.2.2⟩

end Nav
